import Mathlib

/-!
Shallow embedding of the veto-agent Guarded Command Execution Core
(`src/veto-agent/src/{tools,binary,executor,runtime}.ts`) and proofs about it.

Modelling conventions:
* JavaScript values are embedded as `JsValue`; finite numbers are rationals
  (`ℚ`), with `JsValue.nonfinite` standing for `NaN` and the infinities
  (every use in the source immediately filters them through
  `Number.isFinite`, so they are never told apart).
* Records (`Record<string, unknown>`) are ordered association lists
  (`JsRecord`); a missing key reads as `JsValue.undefVal`, matching property
  access on a plain object.
* Fallible TypeScript code (functions that `throw`) returns `Except`.
* Effectful collaborators (the policy guard, the approval poller, `fetch`,
  the process executor, the filesystem) are passed in as explicit function
  arguments, and the executor invocations a call performs are returned as an
  explicit trace.
-/

inductive JsValue where
  | null : JsValue
  | undefVal : JsValue
  | bool (b : Bool) : JsValue
  | num (q : ℚ) : JsValue
  | nonfinite : JsValue
  | str (s : String) : JsValue
  | arr (xs : List JsValue) : JsValue
  | obj (fields : List (String × JsValue)) : JsValue

abbrev JsRecord := List (String × JsValue)

/-- Property read on a plain object: the first binding of the key, or
`undefined` when the key is absent. -/
def JsRecord.get (r : JsRecord) (k : String) : JsValue :=
  match r.find? (fun p => p.1 == k) with
  | some p => p.2
  | none => .undefVal

def JsRecord.keys (r : JsRecord) : List String := r.map (fun p => p.1)

/-- `{ ...r, k: v }`: replace the value in place when the key exists,
append the binding otherwise. -/
def JsRecord.set (r : JsRecord) (k : String) (v : JsValue) : JsRecord :=
  if r.keys.contains k then
    r.map (fun p => if p.1 == k then (k, v) else p)
  else r ++ [(k, v)]

/-- `Number(x).toFixed(d)` read back with `Number(...)`, on an exact rational:
round to `d` fractional digits, ties toward positive infinity (ECMA-262
picks the larger candidate on a tie). -/
def jsToFixed (d : Nat) (q : ℚ) : ℚ :=
  (⌊q * (10 : ℚ) ^ d + 1 / 2⌋ : ℚ) / (10 : ℚ) ^ d

def charDigitVal (c : Char) : Nat := c.toNat - 48

def decDigitsVal (cs : List Char) : Nat :=
  cs.foldl (fun a c => a * 10 + charDigitVal c) 0

def hexDigitVal (c : Char) : Option Nat :=
  if c.isDigit then some (c.toNat - 48)
  else if 97 ≤ c.toNat ∧ c.toNat ≤ 102 then some (c.toNat - 87)
  else if 65 ≤ c.toNat ∧ c.toNat ≤ 70 then some (c.toNat - 55)
  else none

/-- Digits of a fixed radix read as a natural number; `none` when empty or a
character is out of range. -/
def radixVal (radix : Nat) (cs : List Char) : Option Nat :=
  if cs.isEmpty then none
  else
    cs.foldl
      (fun acc c =>
        match acc, hexDigitVal c with
        | some a, some d => if d < radix then some (a * radix + d) else none
        | _, _ => none)
      (some 0)

/-- An unsigned decimal mantissa: `digits`, `digits.digits`, `.digits` or
`digits.`. -/
def parseUnsignedDec (cs : List Char) : Option ℚ :=
  let intPart := cs.takeWhile Char.isDigit
  let rest := cs.dropWhile Char.isDigit
  match rest with
  | [] => if intPart.isEmpty then none else some (decDigitsVal intPart)
  | '.' :: fracRest =>
      let fracPart := fracRest.takeWhile Char.isDigit
      let rest2 := fracRest.dropWhile Char.isDigit
      if !rest2.isEmpty then none
      else if intPart.isEmpty && fracPart.isEmpty then none
      else some ((decDigitsVal intPart : ℚ) +
        (decDigitsVal fracPart : ℚ) / (10 : ℚ) ^ fracPart.length)
  | _ => none

def parseSignedInt (cs : List Char) : Option Int :=
  match cs with
  | '+' :: rest => if rest.isEmpty || !rest.all Char.isDigit then none else some (decDigitsVal rest)
  | '-' :: rest => if rest.isEmpty || !rest.all Char.isDigit then none else some (-(decDigitsVal rest : Int))
  | rest => if rest.isEmpty || !rest.all Char.isDigit then none else some (decDigitsVal rest)

/-- Decimal literal with an optional exponent part. -/
def parseDecLiteral (cs : List Char) : Option ℚ :=
  let mantissa := cs.takeWhile (fun c => c ≠ 'e' ∧ c ≠ 'E')
  let rest := cs.dropWhile (fun c => c ≠ 'e' ∧ c ≠ 'E')
  match parseUnsignedDec mantissa with
  | none => none
  | some m =>
      match rest with
      | [] => some m
      | _ :: expPart =>
          match parseSignedInt expPart with
          | none => none
          | some e => some (m * (10 : ℚ) ^ e)

/-- ASCII whitespace, the characters `trim` strips in the inputs the agent
meets. -/
def isTrimWhitespace (c : Char) : Bool :=
  c = ' ' ∨ c = '\t' ∨ c = '\n' ∨ c = '\r'

/-- `s.trim()` (kernel-computable form). -/
def jsTrim (s : String) : String :=
  String.mk (((s.data.dropWhile isTrimWhitespace).reverse.dropWhile isTrimWhitespace).reverse)

def charToLower (c : Char) : Char :=
  if 'A' ≤ c ∧ c ≤ 'Z' then Char.ofNat (c.toNat + 32) else c

def charToUpper (c : Char) : Char :=
  if 'a' ≤ c ∧ c ≤ 'z' then Char.ofNat (c.toNat - 32) else c

/-- `s.toLowerCase()` for ASCII (kernel-computable form). -/
def jsToLower (s : String) : String := String.mk (s.data.map charToLower)

/-- `s.toUpperCase()` for ASCII (kernel-computable form). -/
def jsToUpper (s : String) : String := String.mk (s.data.map charToUpper)

def splitOnCharAux (c : Char) : List Char → List Char → List String
  | acc, [] => [String.mk acc.reverse]
  | acc, x :: rest =>
      if x = c then String.mk acc.reverse :: splitOnCharAux c [] rest
      else splitOnCharAux c (x :: acc) rest

/-- `s.split(c)` for a one-character separator (kernel-computable form). -/
def splitOnChar (c : Char) (s : String) : List String := splitOnCharAux c [] s.data

def strContainsChar (s : String) (c : Char) : Bool := s.data.any (fun x => x = c)

/-- `Number(s)` for a string, on the decimal / hex / octal / binary grammar;
`none` when the conversion yields `NaN` or an infinity (the callers only
ever ask `Number.isFinite` of the result). -/
def parseJsNumber (s : String) : Option ℚ :=
  let t := jsTrim s
  if t = "" then some 0
  else
    match t.data with
    | '0' :: 'x' :: rest => (radixVal 16 rest).map (fun n => (n : ℚ))
    | '0' :: 'X' :: rest => (radixVal 16 rest).map (fun n => (n : ℚ))
    | '0' :: 'o' :: rest => (radixVal 8 rest).map (fun n => (n : ℚ))
    | '0' :: 'O' :: rest => (radixVal 8 rest).map (fun n => (n : ℚ))
    | '0' :: 'b' :: rest => (radixVal 2 rest).map (fun n => (n : ℚ))
    | '0' :: 'B' :: rest => (radixVal 2 rest).map (fun n => (n : ℚ))
    | cs =>
        let signAndRest : (ℚ × List Char) :=
          match cs with
          | '+' :: r => (1, r)
          | '-' :: r => (-1, r)
          | r => (1, r)
        if signAndRest.2 = "Infinity".data then none
        else (parseDecLiteral signAndRest.2).map (fun q => signAndRest.1 * q)

/-- Fractional digits of `q ∈ [0, 1)`, stopping at an exact representation
(JavaScript prints no trailing zeros); `fuel` bounds the length. -/
def fracDigits (fuel : Nat) (q : ℚ) : String :=
  match fuel with
  | 0 => ""
  | fuel + 1 =>
      if q = 0 then ""
      else
        let q10 := q * 10
        let d := ⌊q10⌋.toNat
        toString d ++ fracDigits fuel (q10 - (d : ℚ))

def jsNumToStringNonneg (q : ℚ) : String :=
  let ip := ⌊q⌋.toNat
  let frac := q - (ip : ℚ)
  if frac = 0 then toString ip
  else toString ip ++ "." ++ fracDigits 64 frac

/-- `String(x)` for a finite number, on values whose decimal expansion
terminates (every number the agent prints into an argument vector does). -/
def jsNumToString (q : ℚ) : String :=
  if q < 0 then "-" ++ jsNumToStringNonneg (-q) else jsNumToStringNonneg q

/-- `Number(value)` coercion for the cases the agent can meet; arrays and
objects other than `[]` coerce through `toString`, which never yields a
number the source goes on to use, so they are modelled as `NaN`. -/
def jsToNumberCoerce : JsValue → Option ℚ
  | .null => some 0
  | .undefVal => none
  | .bool b => some (if b then 1 else 0)
  | .num q => some q
  | .nonfinite => none
  | .str s => parseJsNumber s
  | .arr [] => some 0
  | .arr _ => none
  | .obj _ => none

/-! ## `tools.ts`: the operation catalog and invocation builders -/

namespace Tools

structure CommandBuildResult where
  argv : List String
  guardArgs : JsRecord

structure ToolSpec where
  name : String
  description : String
  mutating : Bool
  build : JsRecord → Except String CommandBuildResult

/-- Closed-schema enforcement: the first key of `args` outside `allowed`
throws `Unexpected argument '<key>'`. -/
def assertAllowedFields : JsRecord → List String → Except String Unit
  | [], _ => .ok ()
  | (k, _) :: rest, allowed =>
      if allowed.contains k then assertAllowedFields rest allowed
      else .error ("Unexpected argument '" ++ k ++ "'")

def asString (value : JsValue) (field : String) : Except String String :=
  match value with
  | .str s =>
      if (jsTrim s).length = 0 then .error ("Invalid '" ++ field ++ "': expected non-empty string")
      else .ok (jsTrim s)
  | _ => .error ("Invalid '" ++ field ++ "': expected non-empty string")

def asNumber (value : JsValue) (field : String) : Except String ℚ :=
  match jsToNumberCoerce value with
  | some q => .ok q
  | none => .error ("Invalid '" ++ field ++ "': expected number")

def asPositiveNumber (value : JsValue) (field : String) : Except String ℚ :=
  match asNumber value field with
  | .error e => .error e
  | .ok q => if q ≤ 0 then .error ("Invalid '" ++ field ++ "': expected positive number") else .ok q

def asBool (value : JsValue) (field : String) : Except String Bool :=
  match value with
  | .bool b => .ok b
  | _ => .error ("Invalid '" ++ field ++ "': expected boolean")

def maybePositiveNumber (value : JsValue) (field : String) : Except String (Option ℚ) :=
  match value with
  | .undefVal => .ok none
  | .null => .ok none
  | v => (asPositiveNumber v field).map some

def maybeBool (value : JsValue) (field : String) : Except String (Option Bool) :=
  match value with
  | .undefVal => .ok none
  | .null => .ok none
  | v => (asBool v field).map some

def maybeString (value : JsValue) (field : String) : Except String (Option String) :=
  match value with
  | .undefVal => .ok none
  | .null => .ok none
  | v => (asString v field).map some

def asSide (value : JsValue) (field : String) : Except String String :=
  match asString value field with
  | .error e => .error e
  | .ok s =>
      let side := jsToLower s
      if side ≠ "buy" ∧ side ≠ "sell" then .error ("Invalid '" ++ field ++ "': expected 'buy' or 'sell'")
      else .ok side

def asOrderType (value : String) : Except String String :=
  let normalized := jsToUpper (jsTrim value)
  if normalized = "GTC" ∨ normalized = "FOK" ∨ normalized = "GTD" ∨ normalized = "FAK" then .ok normalized
  else .error "Invalid 'orderType': expected GTC|FOK|GTD|FAK"

def toFlagBool (value : Bool) : String := if value then "true" else "false"

def optionToJs : Option String → JsValue
  | some s => .str s
  | none => .undefVal

def optionBoolToJs : Option Bool → JsValue
  | some b => .bool b
  | none => .undefVal

def markets_list : ToolSpec where
  name := "markets_list"
  description := "List markets with optional filters."
  mutating := false
  build args := do
    let _ ← assertAllowedFields args ["limit", "active", "closed"]
    let limit ← maybePositiveNumber (args.get "limit") "limit"
    let active ← maybeBool (args.get "active") "active"
    let closed ← maybeBool (args.get "closed") "closed"
    let argv := ["markets", "list"]
    let argv := match limit with | some l => argv ++ ["--limit", jsNumToString l] | none => argv
    let argv := match active with | some a => argv ++ ["--active", toFlagBool a] | none => argv
    let argv := match closed with | some c => argv ++ ["--closed", toFlagBool c] | none => argv
    .ok { argv := argv, guardArgs := args }

def markets_search : ToolSpec where
  name := "markets_search"
  description := "Search markets by free text query."
  mutating := false
  build args := do
    let _ ← assertAllowedFields args ["query", "limit"]
    let query ← asString (args.get "query") "query"
    let limit ← maybePositiveNumber (args.get "limit") "limit"
    let argv := ["markets", "search", query]
    let argv := match limit with | some l => argv ++ ["--limit", jsNumToString l] | none => argv
    .ok { argv := argv, guardArgs := [("query", .str query), ("limit", match limit with | some l => .num l | none => .undefVal)] }

def markets_get : ToolSpec where
  name := "markets_get"
  description := "Get market details by id or slug."
  mutating := false
  build args := do
    let _ ← assertAllowedFields args ["market"]
    let market ← asString (args.get "market") "market"
    .ok { argv := ["markets", "get", market], guardArgs := [("market", .str market)] }

def clob_book : ToolSpec where
  name := "clob_book"
  description := "Get order book for token id."
  mutating := false
  build args := do
    let _ ← assertAllowedFields args ["token"]
    let token ← asString (args.get "token") "token"
    .ok { argv := ["clob", "book", token], guardArgs := [("token", .str token)] }

def clob_midpoint : ToolSpec where
  name := "clob_midpoint"
  description := "Get midpoint price for token id."
  mutating := false
  build args := do
    let _ ← assertAllowedFields args ["token"]
    let token ← asString (args.get "token") "token"
    .ok { argv := ["clob", "midpoint", token], guardArgs := [("token", .str token)] }

def clob_price : ToolSpec where
  name := "clob_price"
  description := "Get clob price for token/side."
  mutating := false
  build args := do
    let _ ← assertAllowedFields args ["token", "side"]
    let token ← asString (args.get "token") "token"
    let side ← asSide (args.get "side") "side"
    .ok { argv := ["clob", "price", token, "--side", side], guardArgs := [("token", .str token), ("side", .str side)] }

def portfolio_positions : ToolSpec where
  name := "portfolio_positions"
  description := "Get public portfolio positions for wallet address."
  mutating := false
  build args := do
    let _ ← assertAllowedFields args ["address"]
    let address ← asString (args.get "address") "address"
    .ok { argv := ["data", "positions", address], guardArgs := [("address", .str address)] }

def order_create_limit : ToolSpec where
  name := "order_create_limit"
  description := "Create a limit order on CLOB."
  mutating := true
  build args := do
    let _ ← assertAllowedFields args ["token", "side", "price", "size", "postOnly", "orderType"]
    let token ← asString (args.get "token") "token"
    let side ← asSide (args.get "side") "side"
    let price ← asPositiveNumber (args.get "price") "price"
    let size ← asPositiveNumber (args.get "size") "size"
    let postOnly ← maybeBool (args.get "postOnly") "postOnly"
    let orderType ← maybeString (args.get "orderType") "orderType"
    let argv := ["clob", "create-order", "--token", token, "--side", side,
      "--price", jsNumToString price, "--size", jsNumToString size]
    let argv ← match postOnly with
      | some p => pure (argv ++ ["--post-only", toFlagBool p])
      | none => pure argv
    let argv ← match orderType with
      | some o => do
          let t ← asOrderType o
          pure (argv ++ ["--order-type", t])
      | none => pure argv
    let amountUsd := jsToFixed 8 (price * size)
    .ok { argv := argv,
          guardArgs := [("token", .str token), ("side", .str side), ("price", .num price),
            ("size", .num size), ("amount_usd", .num amountUsd),
            ("postOnly", optionBoolToJs postOnly), ("orderType", optionToJs orderType)] }

def order_market : ToolSpec where
  name := "order_market"
  description := "Create a market order on CLOB."
  mutating := true
  build args := do
    let _ ← assertAllowedFields args ["token", "side", "amount"]
    let token ← asString (args.get "token") "token"
    let side ← asSide (args.get "side") "side"
    let amount ← asPositiveNumber (args.get "amount") "amount"
    .ok { argv := ["clob", "market-order", "--token", token, "--side", side, "--amount", jsNumToString amount],
          guardArgs := [("token", .str token), ("side", .str side), ("amount", .num amount), ("amount_usd", .num amount)] }

def order_cancel : ToolSpec where
  name := "order_cancel"
  description := "Cancel a specific order."
  mutating := true
  build args := do
    let _ ← assertAllowedFields args ["orderId"]
    let orderId ← asString (args.get "orderId") "orderId"
    .ok { argv := ["clob", "cancel", orderId], guardArgs := [("orderId", .str orderId)] }

def order_cancel_all : ToolSpec where
  name := "order_cancel_all"
  description := "Cancel all open orders."
  mutating := true
  build args := do
    let _ ← assertAllowedFields args []
    .ok { argv := ["clob", "cancel-all"], guardArgs := [] }

def approve_set : ToolSpec where
  name := "approve_set"
  description := "Set Polymarket contract approvals."
  mutating := true
  build args := do
    let _ ← assertAllowedFields args []
    .ok { argv := ["approve", "set"], guardArgs := [] }

def ctf_split : ToolSpec where
  name := "ctf_split"
  description := "Split USDC into conditional tokens."
  mutating := true
  build args := do
    let _ ← assertAllowedFields args ["condition", "amount"]
    let condition ← asString (args.get "condition") "condition"
    let amount ← asPositiveNumber (args.get "amount") "amount"
    .ok { argv := ["ctf", "split", "--condition", condition, "--amount", jsNumToString amount],
          guardArgs := [("condition", .str condition), ("amount", .num amount), ("amount_usd", .num amount)] }

def ctf_merge : ToolSpec where
  name := "ctf_merge"
  description := "Merge conditional tokens back to USDC."
  mutating := true
  build args := do
    let _ ← assertAllowedFields args ["condition", "amount"]
    let condition ← asString (args.get "condition") "condition"
    let amount ← asPositiveNumber (args.get "amount") "amount"
    .ok { argv := ["ctf", "merge", "--condition", condition, "--amount", jsNumToString amount],
          guardArgs := [("condition", .str condition), ("amount", .num amount), ("amount_usd", .num amount)] }

def ctf_redeem : ToolSpec where
  name := "ctf_redeem"
  description := "Redeem winning conditional tokens."
  mutating := true
  build args := do
    let _ ← assertAllowedFields args ["condition"]
    let condition ← asString (args.get "condition") "condition"
    .ok { argv := ["ctf", "redeem", "--condition", condition], guardArgs := [("condition", .str condition)] }

def READ_ONLY_TOOLS : List ToolSpec :=
  [markets_list, markets_search, markets_get, clob_book, clob_midpoint, clob_price, portfolio_positions]

def MUTATING_TOOLS : List ToolSpec :=
  [order_create_limit, order_market, order_cancel, order_cancel_all, approve_set, ctf_split, ctf_merge, ctf_redeem]

def TOOL_SPECS : List ToolSpec := READ_ONLY_TOOLS ++ MUTATING_TOOLS

def getToolSpec (name : String) : Option ToolSpec :=
  TOOL_SPECS.find? (fun tool => tool.name == name)

def profileAgentId (profile : String) : String := "profile/" ++ profile

end Tools

/-! ## `executor.ts`: subprocess execution with resource limits -/

structure ExecutionResult where
  ok : Bool
  exitCode : Int
  stdout : String
  stderr : String
  parsed : JsValue
  argv : List String
  commandPreview : String

namespace Executor

def skipWs (cs : List Char) : List Char :=
  cs.dropWhile (fun c => c = ' ' ∨ c = '\t' ∨ c = '\n' ∨ c = '\r')

def jsonEscapeChar (c : Char) : Option Char :=
  match c with
  | '"' => some '"'
  | '\\' => some '\\'
  | '/' => some '/'
  | 'n' => some '\n'
  | 't' => some '\t'
  | 'r' => some '\r'
  | 'b' => some (Char.ofNat 8)
  | 'f' => some (Char.ofNat 12)
  | _ => none

/-- Body of a JSON string literal, after the opening quote. -/
def parseJsonStringAux : List Char → List Char → Option (String × List Char)
  | acc, '"' :: rest => some (String.mk acc.reverse, rest)
  | acc, '\\' :: 'u' :: h1 :: h2 :: h3 :: h4 :: rest =>
      match hexDigitVal h1, hexDigitVal h2, hexDigitVal h3, hexDigitVal h4 with
      | some a, some b, some c, some d =>
          parseJsonStringAux (Char.ofNat (((a * 16 + b) * 16 + c) * 16 + d) :: acc) rest
      | _, _, _, _ => none
  | acc, '\\' :: e :: rest =>
      match jsonEscapeChar e with
      | some c => parseJsonStringAux (c :: acc) rest
      | none => none
  | acc, c :: rest => parseJsonStringAux (c :: acc) rest
  | _, [] => none

def isJsonNumChar (c : Char) : Bool :=
  c.isDigit || c == '-' || c == '+' || c == '.' || c == 'e' || c == 'E'

def parseJsonNumber (cs : List Char) : Option (JsValue × List Char) :=
  let span := cs.takeWhile isJsonNumChar
  let rest := cs.drop span.length
  if span.isEmpty then none
  else
    match span with
    | '-' :: body => (parseDecLiteral body).map (fun q => (JsValue.num (-q), rest))
    | body => (parseDecLiteral body).map (fun q => (JsValue.num q, rest))

mutual

def parseJsonValue : Nat → List Char → Option (JsValue × List Char)
  | 0, _ => none
  | fuel + 1, cs =>
      match skipWs cs with
      | 'n' :: 'u' :: 'l' :: 'l' :: rest => some (.null, rest)
      | 't' :: 'r' :: 'u' :: 'e' :: rest => some (.bool true, rest)
      | 'f' :: 'a' :: 'l' :: 's' :: 'e' :: rest => some (.bool false, rest)
      | '"' :: rest => (parseJsonStringAux [] rest).map (fun p => (JsValue.str p.1, p.2))
      | '[' :: rest =>
          (match skipWs rest with
           | ']' :: r => some (.arr [], r)
           | r => (parseJsonElems fuel r).map (fun p => (JsValue.arr p.1, p.2)))
      | '{' :: rest =>
          (match skipWs rest with
           | '}' :: r => some (.obj [], r)
           | r => (parseJsonMembers fuel r).map (fun p => (JsValue.obj p.1, p.2)))
      | rest => parseJsonNumber rest

def parseJsonElems : Nat → List Char → Option (List JsValue × List Char)
  | 0, _ => none
  | fuel + 1, cs =>
      match parseJsonValue fuel cs with
      | none => none
      | some (v, rest) =>
          match skipWs rest with
          | ',' :: r => (parseJsonElems fuel r).map (fun p => (v :: p.1, p.2))
          | ']' :: r => some ([v], r)
          | _ => none

def parseJsonMembers : Nat → List Char → Option (List (String × JsValue) × List Char)
  | 0, _ => none
  | fuel + 1, cs =>
      match skipWs cs with
      | '"' :: rest =>
          match parseJsonStringAux [] rest with
          | none => none
          | some (key, afterKey) =>
              match skipWs afterKey with
              | ':' :: afterColon =>
                  match parseJsonValue fuel afterColon with
                  | none => none
                  | some (v, rest2) =>
                      match skipWs rest2 with
                      | ',' :: r => (parseJsonMembers fuel r).map (fun p => ((key, v) :: p.1, p.2))
                      | '}' :: r => some ([(key, v)], r)
                      | _ => none
              | _ => none
      | _ => none

end

/-- `JSON.parse`, modelled on the JSON grammar (a trailing remainder other
than whitespace is a parse error). -/
def parseJson (s : String) : Option JsValue :=
  match parseJsonValue (s.length + 1) s.data with
  | some (v, rest) => if (skipWs rest).isEmpty then some v else none
  | none => none

def maybeJson (text : String) : JsValue :=
  let trimmed := jsTrim text
  if trimmed = "" then .null
  else
    match parseJson trimmed with
    | some v => v
    | none => .str trimmed

def isHexChar (c : Char) : Bool :=
  c.isDigit || ('a' ≤ c && c ≤ 'f') || ('A' ≤ c && c ≤ 'F')

/-- `text.replace(/0x[a-fA-F0-9]{64}/g, '[redacted-private-key]')`:
non-overlapping left-to-right replacement of every private-key-shaped
token. -/
def redactAux : List Char → List Char
  | [] => []
  | '0' :: 'x' :: rest =>
      if (rest.take 64).length = 64 ∧ (rest.take 64).all isHexChar then
        "[redacted-private-key]".data ++ redactAux (rest.drop 64)
      else '0' :: redactAux ('x' :: rest)
  | c :: rest => c :: redactAux rest
termination_by cs => cs.length
decreasing_by all_goals (simp [List.length_drop]; try omega)

def redact (text : String) : String := String.mk (redactAux text.data)

/-- Inject `-o json` ahead of the caller-supplied arguments unless an output
flag with a value after it is already present. -/
def ensureJsonMode (argv : List String) : List String :=
  let hasOutputFlag := argv.enum.any
    (fun p => (p.2 == "--output" || p.2 == "-o") && p.1 < argv.length - 1)
  if hasOutputFlag then argv else "-o" :: "json" :: argv

/-- A data event on one of the child's captured streams. -/
inductive ChildEvent where
  | stdoutData (chunk : String) : ChildEvent
  | stderrData (chunk : String) : ChildEvent

/-- How the spawned child ends: a spawn `error` event, or a `close` event
with the exit code (`none` when the process was killed by a signal, e.g.
the timeout's SIGTERM or the output-cap kill). -/
inductive TerminalEvent where
  | errorEv (msg : String) : TerminalEvent
  | close (code : Option Int) : TerminalEvent

structure StreamState where
  stdout : String := ""
  stderr : String := ""
  outputTooLarge : Bool := false

/-- One `data` handler invocation: append the chunk and, when the
accumulated byte length exceeds the cap, latch `outputTooLarge` (the kill
it triggers surfaces as the terminal event). Once latched, chunks are
ignored. -/
def stepEvent (maxOutputBytes : Nat) (st : StreamState) (ev : ChildEvent) : StreamState :=
  if st.outputTooLarge then st
  else
    match ev with
    | .stdoutData chunk =>
        let stdout := st.stdout ++ chunk
        { st with stdout := stdout, outputTooLarge := stdout.utf8ByteSize > maxOutputBytes }
    | .stderrData chunk =>
        let stderr := st.stderr ++ chunk
        { st with stderr := stderr, outputTooLarge := stderr.utf8ByteSize > maxOutputBytes }

/-- `executePolymarket`, with the child's behaviour (stream chunks and the
terminal event) passed in explicitly. -/
def executePolymarket (binaryPath : String) (argv : List String) (maxOutputBytes : Nat)
    (events : List ChildEvent) (terminal : TerminalEvent) : ExecutionResult :=
  let normalizedArgv := ensureJsonMode argv
  let commandPreview := binaryPath ++ " " ++ String.intercalate " " normalizedArgv
  let st := events.foldl (stepEvent maxOutputBytes) {}
  match terminal with
  | .errorEv msg =>
      { ok := false, exitCode := -1, stdout := redact st.stdout,
        stderr := redact (jsTrim (st.stderr ++ "\n" ++ msg)), parsed := .null,
        argv := normalizedArgv, commandPreview := commandPreview }
  | .close code =>
      if st.outputTooLarge then
        { ok := false, exitCode := code.getD (-1), stdout := "",
          stderr := "Command output exceeded " ++ toString maxOutputBytes ++ " bytes",
          parsed := .null, argv := normalizedArgv, commandPreview := commandPreview }
      else
        let safeStdout := redact st.stdout
        { ok := code.getD (-1) == 0, exitCode := code.getD (-1), stdout := safeStdout,
          stderr := redact st.stderr, parsed := maybeJson safeStdout,
          argv := normalizedArgv, commandPreview := commandPreview }

end Executor

/-! ## `binary.ts`: deterministic binary discovery

The filesystem (`accessSync(..., X_OK)`) is passed in as a predicate
`fs : String → Bool`; `node:path` functions are modelled for POSIX-style
paths (`resolve` of an absolute base and a relative candidate, with `.` and
`..` normalization). -/

namespace Binary

inductive BinarySource where
  | env | config | path | workspaceRelease | workspaceDebug | injected
deriving DecidableEq, Repr

structure BinaryResolution where
  requestedPath : String
  resolvedPath : Option String
  source : Option BinarySource
  checkedPaths : List String
deriving DecidableEq, Repr

structure BinEnv where
  POLYMARKET_BINARY_PATH : Option String := none
  PATH : Option String := none
  win32 : Bool := false

structure ResolveBinaryOptions where
  requestedPath : String
  baseDir : String
  cwd : String
  env : BinEnv := {}

/-- `Array.from(new Set(items))`: first occurrences, in order. -/
def uniq (items : List String) : List String :=
  items.foldl (fun acc x => if acc.contains x then acc else acc ++ [x]) []

def isAbsolute (p : String) : Bool :=
  match p.data with
  | '/' :: _ => true
  | _ => false

/-- Path-segment normalization: drop empty and `.` segments, pop on `..`. -/
def normSegs : List String → List String → List String
  | acc, [] => acc.reverse
  | acc, "" :: rest => normSegs acc rest
  | acc, "." :: rest => normSegs acc rest
  | acc, ".." :: rest => normSegs (acc.drop 1) rest
  | acc, seg :: rest => normSegs (seg :: acc) rest

def normalizeAbs (p : String) : String :=
  "/" ++ String.intercalate "/" (normSegs [] (splitOnChar '/' p))

/-- `path.resolve(base, rel)` for an absolute `base`. -/
def pathResolve (base rel : String) : String :=
  if isAbsolute rel then normalizeAbs rel else normalizeAbs (base ++ "/" ++ rel)

/-- `path.join(dir, file)` (normalized only for an absolute `dir`). -/
def pathJoin (dir file : String) : String :=
  if isAbsolute dir then normalizeAbs (dir ++ "/" ++ file) else dir ++ "/" ++ file

def hasPathSeparators (value : String) : Bool :=
  strContainsChar value '/' || strContainsChar value '\\'

/-- Check candidates in order; the checked list records every candidate
looked at, up to and including the first hit. -/
def scanFirst (fs : String → Bool) : List String → Option String × List String
  | [] => (none, [])
  | c :: rest =>
      if fs c then (some c, [c])
      else
        let r := scanFirst fs rest
        (r.1, c :: r.2)

/-- The candidates a bare command name expands to: each non-empty directory
of the search path, with the platform's suffixes. -/
def commandCandidates (env : BinEnv) (command : String) : List String :=
  match env.PATH with
  | none => []
  | some p =>
      let suffixes := if env.win32 then ["", ".exe", ".cmd", ".bat"] else [""]
      ((splitOnChar (if env.win32 then ';' else ':') p).filter (fun dir => dir ≠ "")).flatMap
        (fun dir => suffixes.map (fun sfx => pathJoin dir (command ++ sfx)))

def resolveCommandOnPath (fs : String → Bool) (command : String) (env : BinEnv) :
    Option String × List String :=
  scanFirst fs (commandCandidates env command)

def resolvePathCandidates (candidate baseDir cwd : String) : List String :=
  if isAbsolute candidate then [candidate]
  else uniq [pathResolve baseDir candidate, pathResolve cwd candidate]

inductive LookupKind where
  | pathKind | commandKind
deriving DecidableEq, Repr

structure QueueItem where
  source : BinarySource
  candidate : String
  kind : LookupKind
deriving DecidableEq, Repr

def normalizedRequestedPath (requested : String) : String :=
  if (jsTrim requested).length > 0 then jsTrim requested else "auto"

/-- The ordered lookup queue: environment override, configured path unless
`auto`, the bare command on the search path, then the de-duplicated local
build outputs (release then debug under each candidate root). -/
def lookupQueue (options : ResolveBinaryOptions) : List QueueItem :=
  let requestedPath := normalizedRequestedPath options.requestedPath
  let roots := uniq [options.baseDir, options.cwd,
    pathResolve options.baseDir "..", pathResolve options.cwd "..",
    pathResolve options.baseDir "../..", pathResolve options.cwd "../.."]
  let localBuildCandidates := roots.flatMap (fun root =>
    [(BinarySource.workspaceRelease, pathResolve root "target/release/polymarket"),
     (BinarySource.workspaceDebug, pathResolve root "target/debug/polymarket")])
  let queueEnv : List QueueItem :=
    match options.env.POLYMARKET_BINARY_PATH with
    | some s =>
        let t := jsTrim s
        if t ≠ "" then
          [{ source := .env, candidate := t,
             kind := if hasPathSeparators t || isAbsolute t then .pathKind else .commandKind }]
        else []
    | none => []
  let queueConfig : List QueueItem :=
    if requestedPath ≠ "auto" then
      [{ source := .config, candidate := requestedPath,
         kind := if hasPathSeparators requestedPath || isAbsolute requestedPath then .pathKind else .commandKind }]
    else []
  let queuePath : List QueueItem := [{ source := .path, candidate := "polymarket", kind := .commandKind }]
  let queueLocal : List QueueItem :=
    localBuildCandidates.map (fun p => { source := p.1, candidate := p.2, kind := .pathKind })
  queueEnv ++ queueConfig ++ queuePath ++ queueLocal

/-- The main loop: try each queue item, accumulating the checked paths. -/
def runQueue (fs : String → Bool) (options : ResolveBinaryOptions) (requestedPath : String) :
    List QueueItem → List String → BinaryResolution
  | [], checked =>
      { requestedPath := requestedPath, resolvedPath := none, source := none,
        checkedPaths := uniq checked }
  | item :: rest, checked =>
      let cands :=
        match item.kind with
        | .commandKind => commandCandidates options.env item.candidate
        | .pathKind => resolvePathCandidates item.candidate options.baseDir options.cwd
      let scanned := scanFirst fs cands
      match scanned.1 with
      | some p =>
          { requestedPath := requestedPath, resolvedPath := some p, source := some item.source,
            checkedPaths := uniq (checked ++ scanned.2) }
      | none => runQueue fs options requestedPath rest (checked ++ scanned.2)

def resolvePolymarketBinary (fs : String → Bool) (options : ResolveBinaryOptions) : BinaryResolution :=
  runQueue fs options (normalizedRequestedPath options.requestedPath) (lookupQueue options) []

/-- The flattened, ordered candidate list the spec's §4.2 describes: each
queue item expanded to the concrete paths it checks, tagged with its
source. -/
def candidateList (options : ResolveBinaryOptions) : List (BinarySource × String) :=
  (lookupQueue options).flatMap (fun item =>
    (match item.kind with
     | .commandKind => commandCandidates options.env item.candidate
     | .pathKind => resolvePathCandidates item.candidate options.baseDir options.cwd).map
      (fun c => (item.source, c)))

end Binary

/-! ## `runtime.ts`: the decision gateway, live gates, simulation and the
approval poller -/

namespace Runtime

/-- `asNumber` of `runtime.ts`: a finite number as itself; a string with
non-blank content through `Number(...)` with a finiteness check; everything
else `null`. -/
def asNumber : JsValue → Option ℚ
  | .num q => some q
  | .str s => if (jsTrim s).length > 0 then parseJsNumber s else none
  | _ => none

/-- Extract a midpoint-like value from a parsed payload: only plain objects
qualify, then the field aliases `midpoint`, `mid`, `price` in order. -/
def extractMidpoint : JsValue → Option ℚ
  | .obj fields =>
      (asNumber (JsRecord.get fields "midpoint")).orElse (fun _ =>
        (asNumber (JsRecord.get fields "mid")).orElse (fun _ =>
          asNumber (JsRecord.get fields "price")))
  | _ => none

def toRecord : JsValue → JsRecord
  | .obj fields => fields
  | _ => []

def optionalString : JsValue → Option String
  | .str s => if (jsTrim s).length > 0 then some (jsTrim s) else none
  | _ => none

structure RuntimeErrorShape where
  code : Int
  message : String
  data : Option JsValue := none

structure RuntimeDecision where
  decision : String
  reason : Option String := none
  ruleId : Option String := none
  approvalId : Option String := none

structure LiveState where
  simulation : Bool
  reason : Option String := none
deriving Repr

structure ExecutionCfg where
  simulationDefault : Bool
  allowLiveTrades : Bool
  maxCommandTimeoutMs : ℚ
  maxOutputBytes : ℚ

/-- `resolveLiveState`: a read-only tool is never simulated; a mutating one
is simulated unless the override (or, absent one, the configured default)
says live, config allows live trading, and `ALLOW_LIVE_TRADES` is `true`
up to case. -/
def resolveLiveState (mutating : Bool) (simulationOverride : Option Bool)
    (cfg : ExecutionCfg) (allowLiveEnv : Option String) : LiveState :=
  if !mutating then { simulation := false }
  else if simulationOverride.getD cfg.simulationDefault then
    { simulation := true, reason := some "simulation mode enabled" }
  else if !cfg.allowLiveTrades then
    { simulation := true, reason := some "live trading disabled in config" }
  else if jsToLower (allowLiveEnv.getD "") ≠ "true" then
    { simulation := true, reason := some "ALLOW_LIVE_TRADES=true not set" }
  else { simulation := false }

/-- What an injected `waitForApproval` call does: resolve, throw a
`RuntimeError`, or throw something else. -/
inductive ApprovalCallResult where
  | resolved (status : String) (resolvedBy : Option String)
  | thrownShape (shape : RuntimeErrorShape)
  | thrownOther (msg : String)

/-- The single text content block of a tool result; the source renders
`payload` through `JSON.stringify(-, null, 2)`. -/
structure McpToolResult where
  payload : JsValue

def optToJs : Option String → JsValue
  | some s => .str s
  | none => .undefVal

/-- The runtime's fixed collaborators and configuration for one call:
binary state, execution config, environment, the policy guard, the
approval poller and the process executor (the last three as injectable
functions, mirroring `RuntimeDependencies`). -/
structure CallEnv where
  binaryRequestedPath : String
  binaryResolvedPath : Option String
  binaryCheckedPaths : List String
  cfg : ExecutionCfg
  allowLiveEnv : Option String
  timestamp : String
  guardFn : String → JsRecord → RuntimeDecision
  approvalFn : String → ApprovalCallResult
  execFn : List String → ExecutionResult

def binaryFixes : List String :=
  ["Install Polymarket CLI globally (for macOS/Linux: 'brew install polymarket').",
   "Or build this repo binary: 'cargo build --release' and use './target/release/polymarket'.",
   "Or set POLYMARKET_BINARY_PATH to a valid executable.",
   "Or set polymarket.binaryPath in veto-agent/polymarket-veto.config.yaml."]

def binaryMissingMessage (env : CallEnv) : String :=
  String.intercalate " "
    ["Polymarket CLI binary not found.",
     "requested='" ++ env.binaryRequestedPath ++ "'",
     "checked=" ++ toString env.binaryCheckedPaths.length,
     "Run 'polymarket-veto-mcp doctor' for detailed diagnostics."]

def binaryMissingShape (env : CallEnv) : RuntimeErrorShape :=
  { code := -32003, message := binaryMissingMessage env,
    data := some (.obj [("requestedPath", .str env.binaryRequestedPath),
      ("checkedPaths", .arr (env.binaryCheckedPaths.map JsValue.str)),
      ("fixes", .arr (binaryFixes.map JsValue.str))]) }

def optNumToJs : Option ℚ → JsValue
  | some q => .num q
  | none => .null

/-- The simulation path: build the preview record and, for the two
price-bearing order tools with a non-empty token, run the read-only
midpoint probe; returns the record and the argv lists passed to the
executor. -/
def simulate (env : CallEnv) (spec : Tools.ToolSpec) (built : Tools.CommandBuildResult)
    (binaryPath : String) (reason : Option String) : JsRecord × List (List String) :=
  let out : JsRecord :=
    [("simulation", .bool true), ("reason", optToJs reason), ("tool", .str spec.name),
     ("command", .str (binaryPath ++ " -o json " ++ String.intercalate " " built.argv)),
     ("guardArgs", .obj built.guardArgs), ("liveTrading", .bool false)]
  if spec.name = "order_market" ∨ spec.name = "order_create_limit" then
    match built.guardArgs.get "token" with
    | .str token =>
        if token ≠ "" then
          let probeArgv := ["clob", "midpoint", token]
          let midpointResponse := env.execFn probeArgv
          if midpointResponse.ok then
            let midpoint := extractMidpoint midpointResponse.parsed
            let out := out ++ [("marketReference", .obj
              [("token", .str token), ("midpoint", optNumToJs midpoint),
               ("raw", midpointResponse.parsed)])]
            let out :=
              if spec.name = "order_market" then
                match asNumber (built.guardArgs.get "amount"), midpoint with
                | some amount, some m =>
                    if m > 0 then out ++ [("estimatedShares", .num (jsToFixed 6 (amount / m)))]
                    else out
                | _, _ => out
              else out
            let out :=
              if spec.name = "order_create_limit" then
                let price := asNumber (built.guardArgs.get "price")
                let size := asNumber (built.guardArgs.get "size")
                let out :=
                  match price, size with
                  | some p, some s => out ++ [("estimatedNotionalUsd", .num (jsToFixed 6 (p * s)))]
                  | _, _ => out
                match price, midpoint with
                | some p, some m => out ++ [("priceVsMidpoint", .num (jsToFixed 6 (p - m)))]
                | _, _ => out
              else out
            (out, [probeArgv])
          else
            (out ++ [("marketReference", .obj
              [("token", .str token),
               ("warning", .str (if midpointResponse.stderr ≠ "" then midpointResponse.stderr
                 else "midpoint lookup failed with code " ++ toString midpointResponse.exitCode))])],
             [probeArgv])
        else (out, [])
    | _ => (out, [])
  else (out, [])

/-- Steps 5–8 of the orchestrator, after the policy/approval gates: binary
resolution, live-state resolution, then either the simulation path or the
real execution. -/
def proceed (env : CallEnv) (spec : Tools.ToolSpec) (built : Tools.CommandBuildResult)
    (simulationOverride : Option Bool) :
    Except RuntimeErrorShape McpToolResult × List (List String) :=
  match env.binaryResolvedPath with
  | none => (.error (binaryMissingShape env), [])
  | some binaryPath =>
      let liveState := resolveLiveState spec.mutating simulationOverride env.cfg env.allowLiveEnv
      if spec.mutating && liveState.simulation then
        let sim := simulate env spec built binaryPath liveState.reason
        (.ok { payload := .obj sim.1 }, sim.2)
      else
        let execution := env.execFn built.argv
        if !execution.ok then
          (.error { code := -32003,
                    message := "Command failed: " ++
                      (if execution.stderr ≠ "" then execution.stderr
                       else "exit code " ++ toString execution.exitCode),
                    data := some (.obj [("command", .str execution.commandPreview),
                      ("exitCode", .num execution.exitCode),
                      ("stderr", .str execution.stderr)]) }, [built.argv])
        else
          (.ok { payload := .obj [("live", .bool spec.mutating), ("tool", .str spec.name),
            ("command", .str execution.commandPreview), ("output", execution.parsed)] },
           [built.argv])

/-- A `callTool` invocation's observable outcome: the result, the argv
lists passed to the process executor, and how many times the approval
poller ran. -/
structure CallOutcome where
  result : Except RuntimeErrorShape McpToolResult
  execCalls : List (List String)
  approvalCalls : Nat

/-- `callTool`: lookup, build, policy decision, approval wait, then
`proceed`. -/
def callTool (env : CallEnv) (toolName : String) (args : JsRecord)
    (simulationOverride : Option Bool) : CallOutcome :=
  match Tools.getToolSpec toolName with
  | none =>
      { result := .error { code := -32601, message := "Unknown tool '" ++ toolName ++ "'" },
        execCalls := [], approvalCalls := 0 }
  | some spec =>
      match spec.build args with
      | .error msg =>
          { result := .error { code := -32602, message := msg },
            execCalls := [], approvalCalls := 0 }
      | .ok built =>
          let guardArgs := built.guardArgs.set "timestamp" (.str env.timestamp)
          let decision := env.guardFn toolName guardArgs
          if decision.decision = "deny" then
            { result := .error
                { code := -32001,
                  message := "Denied by policy: " ++ decision.reason.getD "policy violation",
                  data := some (.obj [("ruleId", optToJs decision.ruleId)]) },
              execCalls := [], approvalCalls := 0 }
          else if decision.decision = "require_approval" then
            let approvalId : Option String :=
              match decision.approvalId with
              | some s => if (jsTrim s).length > 0 then some s else none
              | none => none
            match approvalId with
            | none =>
                { result := .error
                    { code := -32002,
                      message := "Approval required: " ++ decision.reason.getD "awaiting approval",
                      data := some (.obj [("ruleId", optToJs decision.ruleId)]) },
                  execCalls := [], approvalCalls := 0 }
            | some aid =>
                match env.approvalFn aid with
                | .thrownShape shape =>
                    { result := .error shape, execCalls := [], approvalCalls := 1 }
                | .thrownOther m =>
                    { result := .error
                        { code := -32003,
                          message := "Approval polling failed: " ++ m,
                          data := some (.obj [("ruleId", optToJs decision.ruleId),
                            ("approvalId", .str aid)]) },
                      execCalls := [], approvalCalls := 1 }
                | .resolved status resolvedBy =>
                    if status ≠ "approved" then
                      { result := .error
                          { code := -32001,
                            message := "Denied by policy: Approval " ++ status ++ ": " ++
                              decision.reason.getD "approval not granted",
                            data := some (.obj [("ruleId", optToJs decision.ruleId),
                              ("approvalId", .str aid), ("resolvedBy", optToJs resolvedBy)]) },
                        execCalls := [], approvalCalls := 1 }
                    else
                      let p := proceed env spec built simulationOverride
                      { result := p.1, execCalls := p.2, approvalCalls := 1 }
          else
            let p := proceed env spec built simulationOverride
            { result := p.1, execCalls := p.2, approvalCalls := 0 }

/-! ### `waitForApprovalFromCloud`: the bounded retry loop

`fetchFn i` is what the `i`-th request does; `remaining i` is
`deadline - Date.now()` at the `i`-th loop bottom. The `Nat` in the result
counts the requests issued; `none` means the supplied fuel ran out before
the loop terminated. -/

inductive FetchOutcome where
  | success (body : JsValue)
  | failureStatus (status : Nat) (text : String)
  | thrownNetwork (msg : String)

inductive PollResult where
  | resolved (status : String) (resolvedBy : Option String)
  | failed (shape : RuntimeErrorShape)

def approvalTerminal (status : String) : Bool :=
  status == "approved" || status == "denied" || status == "expired"

def waitForApprovalFromCloud (fetchFn : Nat → FetchOutcome) (remaining : Nat → Int)
    (timeoutMs : Nat) (approvalId : String) :
    Nat → Nat → Option String → Option (PollResult × Nat)
  | 0, _, _ => none
  | fuel + 1, i, lastError =>
      let deadlineCheck : Option String → Option (PollResult × Nat) := fun lastErr =>
        if remaining i ≤ 0 then
          match lastErr with
          | some e =>
              some (.failed { code := -32003, message := "Approval polling failed: " ++ e,
                              data := some (.obj [("approvalId", .str approvalId)]) }, i + 1)
          | none =>
              some (.failed { code := -32002,
                              message := "Approval required but timed out after " ++ toString (timeoutMs / 1000) ++ "s",
                              data := some (.obj [("approvalId", .str approvalId)]) }, i + 1)
        else waitForApprovalFromCloud fetchFn remaining timeoutMs approvalId fuel (i + 1) lastErr
      match fetchFn i with
      | .success body =>
          match optionalString ((toRecord body).get "status") with
          | some status =>
              if approvalTerminal status then
                some (.resolved status (optionalString ((toRecord body).get "resolvedBy")), i + 1)
              else deadlineCheck lastError
          | none => deadlineCheck lastError
      | .failureStatus status text =>
          if 400 ≤ status ∧ status < 500 then
            some (.failed { code := -32003,
                            message := "Approval polling failed: status " ++ toString status ++ ": " ++ text,
                            data := some (.obj [("approvalId", .str approvalId)]) }, i + 1)
          else
            deadlineCheck (some ("status " ++ toString status ++
              (if text ≠ "" then ": " ++ text else "")))
      | .thrownNetwork msg => deadlineCheck (some msg)

end Runtime

/-! ## Supporting definitions for the theorems: catalog metadata, the
spec-ordered candidate list expansion, and concrete environments used by
the witnesses -/

/-- Expansion of one lookup-queue item into its checked paths, tagged with
the item's source. -/
def Binary.expandItem (options : Binary.ResolveBinaryOptions) (item : Binary.QueueItem) :
    List (Binary.BinarySource × String) :=
  (match item.kind with
   | .commandKind => Binary.commandCandidates options.env item.candidate
   | .pathKind => Binary.resolvePathCandidates item.candidate options.baseDir options.cwd).map
    (fun c => (item.source, c))

/-- The allowed field set of every tool in the catalog, in catalog order. -/
def allowedFieldsTable : List (Tools.ToolSpec × List String) :=
  [(Tools.markets_list, ["limit", "active", "closed"]),
   (Tools.markets_search, ["query", "limit"]),
   (Tools.markets_get, ["market"]),
   (Tools.clob_book, ["token"]),
   (Tools.clob_midpoint, ["token"]),
   (Tools.clob_price, ["token", "side"]),
   (Tools.portfolio_positions, ["address"]),
   (Tools.order_create_limit, ["token", "side", "price", "size", "postOnly", "orderType"]),
   (Tools.order_market, ["token", "side", "amount"]),
   (Tools.order_cancel, ["orderId"]),
   (Tools.order_cancel_all, []),
   (Tools.approve_set, []),
   (Tools.ctf_split, ["condition", "amount"]),
   (Tools.ctf_merge, ["condition", "amount"]),
   (Tools.ctf_redeem, ["condition"])]

/-- A concrete runtime environment whose executor answers the midpoint
probe with `{midpoint: 0.5}`. -/
def c10Env : Runtime.CallEnv where
  binaryRequestedPath := "polymarket"
  binaryResolvedPath := some "/usr/bin/polymarket"
  binaryCheckedPaths := []
  cfg := { simulationDefault := true, allowLiveTrades := false,
           maxCommandTimeoutMs := 10000, maxOutputBytes := 1048576 }
  allowLiveEnv := none
  timestamp := "2026-01-01T00:00:00.000Z"
  guardFn := fun _ _ => { decision := "allow" }
  approvalFn := fun _ => .resolved "approved" none
  execFn := fun argv =>
    { ok := true, exitCode := 0, stdout := "", stderr := "",
      parsed := .obj [("midpoint", .num (1 / 2))], argv := argv, commandPreview := "" }

def c10Built : Tools.CommandBuildResult where
  argv := ["clob", "market-order", "--token", "1", "--side", "buy", "--amount", "20"]
  guardArgs := [("token", .str "1"), ("side", .str "buy"),
    ("amount", .num 20), ("amount_usd", .num 20)]

def c2Env : Runtime.CallEnv where
  binaryRequestedPath := "polymarket"
  binaryResolvedPath := some "/usr/bin/polymarket"
  binaryCheckedPaths := []
  cfg := { simulationDefault := true, allowLiveTrades := false,
           maxCommandTimeoutMs := 10000, maxOutputBytes := 1048576 }
  allowLiveEnv := none
  timestamp := "2026-01-01T00:00:00.000Z"
  guardFn := fun _ _ => { decision := "deny", reason := some "budget exceeded", ruleId := some "max-usd" }
  approvalFn := fun _ => .resolved "approved" none
  execFn := fun argv =>
    { ok := true, exitCode := 0, stdout := "", stderr := "",
      parsed := .obj [("ok", .bool true)], argv := argv, commandPreview := "" }

def c3Env : Runtime.CallEnv where
  binaryRequestedPath := "polymarket"
  binaryResolvedPath := some "/usr/bin/polymarket"
  binaryCheckedPaths := []
  cfg := { simulationDefault := true, allowLiveTrades := false,
           maxCommandTimeoutMs := 10000, maxOutputBytes := 1048576 }
  allowLiveEnv := none
  timestamp := "2026-01-01T00:00:00.000Z"
  guardFn := fun _ _ =>
    { decision := "require_approval", reason := some "amount requires review",
      ruleId := some "approval-rule", approvalId := some "apr_test_456" }
  approvalFn := fun _ => .resolved "denied" (some "reviewer")
  execFn := fun argv =>
    { ok := true, exitCode := 0, stdout := "", stderr := "",
      parsed := .obj [("ok", .bool true)], argv := argv, commandPreview := "" }

def c1Env : Runtime.CallEnv where
  binaryRequestedPath := "polymarket"
  binaryResolvedPath := some "/usr/bin/polymarket"
  binaryCheckedPaths := []
  cfg := { simulationDefault := true, allowLiveTrades := false,
           maxCommandTimeoutMs := 10000, maxOutputBytes := 1048576 }
  allowLiveEnv := none
  timestamp := "2026-01-01T00:00:00.000Z"
  guardFn := fun _ _ => { decision := "allow" }
  approvalFn := fun _ => .resolved "approved" none
  execFn := fun argv =>
    { ok := true, exitCode := 0, stdout := "", stderr := "",
      parsed := .obj [("midpoint", .num (1 / 2))], argv := argv, commandPreview := "" }

/-! ## Theorems -/

/-- C4: an approval poll answered with an HTTP 4xx status fails after that
single request — no retry — with an error surfacing the status code and the
response body. -/
theorem c4_poll_4xx_fails_once (fetchFn : Nat → Runtime.FetchOutcome) (remaining : Nat → Int)
    (timeoutMs : Nat) (approvalId : String) (fuel i : Nat) (lastError : Option String)
    (s : Nat) (t : String) (hfetch : fetchFn i = .failureStatus s t)
    (h400 : 400 ≤ s) (h500 : s < 500) :
    Runtime.waitForApprovalFromCloud fetchFn remaining timeoutMs approvalId (fuel + 1) i lastError =
      some (.failed
        { code := -32003,
          message := "Approval polling failed: status " ++ toString s ++ ": " ++ t,
          data := some (.obj [("approvalId", .str approvalId)]) }, i + 1) := by
  simp only [Runtime.waitForApprovalFromCloud, hfetch]
  rw [if_pos ⟨h400, h500⟩]

theorem c4_poll_4xx_fails_once_witness :
    Runtime.waitForApprovalFromCloud (fun _ => .failureStatus 403 "forbidden") (fun _ => 100)
        300000 "apr" 1 0 none =
      some (.failed
        { code := -32003,
          message := "Approval polling failed: status " ++ toString (403 : Nat) ++ ": " ++ "forbidden",
          data := some (.obj [("approvalId", .str "apr")]) }, 0 + 1) :=
  c4_poll_4xx_fails_once _ _ 300000 "apr" 0 0 none 403 "forbidden" rfl (by norm_num) (by norm_num)

/-- C5: when the deadline has elapsed at the loop bottom, a retryable
failure observed on this iteration (network error, or a non-4xx HTTP
failure) becomes the reported error; a non-terminal success leaves the
previously recorded retryable error in charge, and only when none was ever
recorded does the generic timeout error (code -32002, reporting the
configured timeout in seconds) surface. -/
theorem c5_poll_deadline_error_precedence (fetchFn : Nat → Runtime.FetchOutcome)
    (remaining : Nat → Int) (timeoutMs : Nat) (approvalId : String) (fuel i : Nat)
    (lastError : Option String) (hrem : remaining i ≤ 0) :
    (∀ m, fetchFn i = .thrownNetwork m →
      Runtime.waitForApprovalFromCloud fetchFn remaining timeoutMs approvalId (fuel + 1) i lastError =
        some (.failed
          { code := -32003, message := "Approval polling failed: " ++ m,
            data := some (.obj [("approvalId", .str approvalId)]) }, i + 1))
    ∧ (∀ s t, fetchFn i = .failureStatus s t → ¬(400 ≤ s ∧ s < 500) →
      Runtime.waitForApprovalFromCloud fetchFn remaining timeoutMs approvalId (fuel + 1) i lastError =
        some (.failed
          { code := -32003,
            message := "Approval polling failed: " ++
              ("status " ++ toString s ++ (if t ≠ "" then ": " ++ t else "")),
            data := some (.obj [("approvalId", .str approvalId)]) }, i + 1))
    ∧ (∀ body, fetchFn i = .success body →
        (∀ st, Runtime.optionalString ((Runtime.toRecord body).get "status") = some st →
          Runtime.approvalTerminal st = false) →
      Runtime.waitForApprovalFromCloud fetchFn remaining timeoutMs approvalId (fuel + 1) i lastError =
        some ((match lastError with
          | some e => .failed
              { code := -32003, message := "Approval polling failed: " ++ e,
                data := some (.obj [("approvalId", .str approvalId)]) }
          | none => .failed
              { code := -32002,
                message := "Approval required but timed out after " ++ toString (timeoutMs / 1000) ++ "s",
                data := some (.obj [("approvalId", .str approvalId)]) }), i + 1)) := by
  refine ⟨?_, ?_, ?_⟩
  · intro m hfetch
    simp only [Runtime.waitForApprovalFromCloud, hfetch]
    rw [if_pos hrem]
  · intro s t hfetch hnot4xx
    simp only [Runtime.waitForApprovalFromCloud, hfetch]
    rw [if_neg hnot4xx, if_pos hrem]
  · intro body hfetch hstatus
    simp only [Runtime.waitForApprovalFromCloud, hfetch]
    cases hst : Runtime.optionalString ((Runtime.toRecord body).get "status") with
    | none =>
        simp only [hst, if_pos hrem]
        cases lastError <;> rfl
    | some st =>
        have hterm := hstatus st hst
        simp only [hst, hterm, Bool.false_eq_true, if_neg, if_pos hrem]
        cases lastError <;> simp

/-- Witness for C5: with a previously recorded retryable error and a
non-terminal success at the deadline, the recorded error is reported. -/
theorem c5_poll_deadline_error_precedence_witness :
    Runtime.waitForApprovalFromCloud (fun _ => .success (.obj [])) (fun _ => -1)
        300000 "apr" 1 0 (some "status 502") =
      some ((match some "status 502" with
        | some e => Runtime.PollResult.failed
            { code := -32003, message := "Approval polling failed: " ++ e,
              data := some (.obj [("approvalId", .str "apr")]) }
        | none => Runtime.PollResult.failed
            { code := -32002,
              message := "Approval required but timed out after " ++ toString (300000 / 1000 : Nat) ++ "s",
              data := some (.obj [("approvalId", .str "apr")]) }), 0 + 1) :=
  ((c5_poll_deadline_error_precedence (fun _ => .success (.obj [])) (fun _ => -1) 300000 "apr" 0 0
      (some "status 502") (by norm_num)).2.2) (.obj []) rfl
    (fun st h => by simp [Runtime.optionalString, Runtime.toRecord, JsRecord.get] at h)

/-- C6: the executor classifies `ok := true` exactly when the child closed
with exit code 0 and the output cap was never tripped; spawn errors, absent
or non-zero exit codes and the size-exceeded kill are all failures, and the
size-exceeded case reports empty stdout and a stderr naming the byte
limit. -/
theorem c6_executor_ok_classification (binaryPath : String) (argv : List String)
    (maxOutputBytes : Nat) (events : List Executor.ChildEvent) (terminal : Executor.TerminalEvent) :
    ((Executor.executePolymarket binaryPath argv maxOutputBytes events terminal).ok = true ↔
      terminal = .close (some 0) ∧
        (events.foldl (Executor.stepEvent maxOutputBytes) {}).outputTooLarge = false)
    ∧ (∀ code, terminal = .close code →
        (events.foldl (Executor.stepEvent maxOutputBytes) {}).outputTooLarge = true →
        (Executor.executePolymarket binaryPath argv maxOutputBytes events terminal).stdout = "" ∧
          (Executor.executePolymarket binaryPath argv maxOutputBytes events terminal).stderr =
            "Command output exceeded " ++ toString maxOutputBytes ++ " bytes") := by
  cases terminal with
  | errorEv msg => simp [Executor.executePolymarket]
  | close code =>
      by_cases htl : (events.foldl (Executor.stepEvent maxOutputBytes) {}).outputTooLarge
      · simp [Executor.executePolymarket, htl]
      · cases code with
        | none => simp [Executor.executePolymarket, htl]
        | some c => simp [Executor.executePolymarket, htl]

theorem c6_executor_ok_classification_witness :
    ((Executor.executePolymarket "pm" ["clob", "book", "t"] 4
        [.stdoutData "0123456789"] (.close (some 0))).ok = true ↔
      Executor.TerminalEvent.close (some 0) = .close (some 0) ∧
        ([Executor.ChildEvent.stdoutData "0123456789"].foldl (Executor.stepEvent 4) {}).outputTooLarge = false)
    ∧ (∀ code, Executor.TerminalEvent.close (some 0) = .close code →
        ([Executor.ChildEvent.stdoutData "0123456789"].foldl (Executor.stepEvent 4) {}).outputTooLarge = true →
        (Executor.executePolymarket "pm" ["clob", "book", "t"] 4
          [.stdoutData "0123456789"] (.close (some 0))).stdout = "" ∧
          (Executor.executePolymarket "pm" ["clob", "book", "t"] 4
            [.stdoutData "0123456789"] (.close (some 0))).stderr =
            "Command output exceeded " ++ toString (4 : Nat) ++ " bytes") :=
  c6_executor_ok_classification "pm" ["clob", "book", "t"] 4 [.stdoutData "0123456789"] (.close (some 0))

/-- When some key of `args` is outside `allowed`, `assertAllowedFields`
throws for the first such key. -/
theorem assertAllowedFields_reject (args : JsRecord) (allowed : List String)
    (h : ∃ k, k ∈ JsRecord.keys args ∧ k ∉ allowed) :
    ∃ k, k ∈ JsRecord.keys args ∧ k ∉ allowed ∧
      Tools.assertAllowedFields args allowed = .error ("Unexpected argument '" ++ k ++ "'") := by
  induction args with
  | nil => simp [JsRecord.keys] at h
  | cons p rest ih =>
      obtain ⟨k1, v1⟩ := p
      obtain ⟨k0, hk0mem, hk0not⟩ := h
      by_cases hc : allowed.contains k1 = true
      · have hk1 : k1 ∈ allowed := by simpa using hc
        have hk0rest : k0 ∈ JsRecord.keys rest := by
          rcases (by simpa [JsRecord.keys] using hk0mem : k0 = k1 ∨ k0 ∈ JsRecord.keys rest) with h1 | h2
          · exact absurd (h1 ▸ hk1) hk0not
          · exact h2
        obtain ⟨k, hmem, hnot, herr⟩ := ih ⟨k0, hk0rest, hk0not⟩
        refine ⟨k, ?_, hnot, ?_⟩
        · simp only [JsRecord.keys, List.map_cons, List.mem_cons]
          exact Or.inr hmem
        · simpa [Tools.assertAllowedFields, hk1] using herr
      · have hn : k1 ∉ allowed := by simpa using hc
        refine ⟨k1, by simp [JsRecord.keys], hn, ?_⟩
        simp [Tools.assertAllowedFields, hn]

/-- C8: the table covers exactly the catalog, and for every tool, an
argument record with a key outside the tool's allowed field set makes
`build` fail with a message naming an offending key — never silently
dropped, for read-only, mutating and zero-argument tools alike. -/
theorem c8_unknown_field_rejected :
    allowedFieldsTable.map Prod.fst = Tools.TOOL_SPECS ∧
    ∀ spec allowed, (spec, allowed) ∈ allowedFieldsTable →
      ∀ args : JsRecord, (∃ k, k ∈ JsRecord.keys args ∧ k ∉ allowed) →
        ∃ k, k ∈ JsRecord.keys args ∧ k ∉ allowed ∧
          spec.build args = .error ("Unexpected argument '" ++ k ++ "'") := by
  refine ⟨rfl, ?_⟩
  intro spec allowed hmem args hbad
  obtain ⟨k, hk, hnk, herr⟩ := assertAllowedFields_reject args allowed hbad
  simp only [allowedFieldsTable, List.mem_cons, List.mem_singleton, Prod.mk.injEq,
    List.not_mem_nil, or_false] at hmem
  rcases hmem with ⟨h1, h2⟩ | ⟨h1, h2⟩ | ⟨h1, h2⟩ | ⟨h1, h2⟩ | ⟨h1, h2⟩ | ⟨h1, h2⟩ | ⟨h1, h2⟩ |
    ⟨h1, h2⟩ | ⟨h1, h2⟩ | ⟨h1, h2⟩ | ⟨h1, h2⟩ | ⟨h1, h2⟩ | ⟨h1, h2⟩ | ⟨h1, h2⟩ | ⟨h1, h2⟩ <;>
    subst h1 <;> subst h2 <;>
    exact ⟨k, hk, hnk, by
      simp only [Tools.markets_list, Tools.markets_search, Tools.markets_get, Tools.clob_book,
        Tools.clob_midpoint, Tools.clob_price, Tools.portfolio_positions, Tools.order_create_limit,
        Tools.order_market, Tools.order_cancel, Tools.order_cancel_all, Tools.approve_set,
        Tools.ctf_split, Tools.ctf_merge, Tools.ctf_redeem, bind, Except.bind, herr]⟩

/-- Witness for C8: the single-field tool `markets_get` rejects
`{market: "abc", unexpected: true}`, naming the unexpected field. -/
theorem c8_unknown_field_rejected_witness :
    ∃ k, k ∈ JsRecord.keys [("market", .str "abc"), ("unexpected", .bool true)] ∧
      k ∉ ["market"] ∧
      Tools.markets_get.build [("market", .str "abc"), ("unexpected", .bool true)] =
        .error ("Unexpected argument '" ++ k ++ "'") :=
  c8_unknown_field_rejected.2 Tools.markets_get ["market"] (by simp [allowedFieldsTable])
    [("market", .str "abc"), ("unexpected", .bool true)]
    ⟨"unexpected", by simp [JsRecord.keys], by simp⟩

theorem string_length_ne_zero {s : String} (h : s ≠ "") : ¬s.length = 0 := by
  intro h0
  apply h
  cases s with
  | mk data =>
      cases data with
      | nil => rfl
      | cons c cs => simp [String.length] at h0

/-- C7: building `order_create_limit` with a finite strictly-positive price
and size yields `amount_usd = price × size` rounded to 8 fractional digits
(with price `0.5` and size `10` that is `5`), and an argument vector with
`--price <price>` before `--size <size>`. -/
theorem c7_limit_order_build (token side : String) (p s : ℚ)
    (htoken : jsTrim token ≠ "") (hside : side = "buy" ∨ side = "sell")
    (hp : 0 < p) (hs : 0 < s) :
    ∃ b, Tools.order_create_limit.build
        [("token", .str token), ("side", .str side), ("price", .num p), ("size", .num s)] = .ok b
      ∧ JsRecord.get b.guardArgs "amount_usd" = .num (jsToFixed 8 (p * s))
      ∧ b.argv.get? 6 = some "--price" ∧ b.argv.get? 7 = some (jsNumToString p)
      ∧ b.argv.get? 8 = some "--size" ∧ b.argv.get? 9 = some (jsNumToString s)
      ∧ (p = 1 / 2 → s = 10 → JsRecord.get b.guardArgs "amount_usd" = .num 5) := by
  have hlen := string_length_ne_zero htoken
  have hnp : ¬p ≤ 0 := not_le.mpr hp
  have hns : ¬s ≤ 0 := not_le.mpr hs
  have hstr : Tools.asString (JsValue.str token) "token" = .ok (jsTrim token) := by
    simp [Tools.asString, hlen]
  have hprice : Tools.asPositiveNumber (JsValue.num p) "price" = .ok p := by
    simp [Tools.asPositiveNumber, Tools.asNumber, jsToNumberCoerce, hnp]
  have hsize : Tools.asPositiveNumber (JsValue.num s) "size" = .ok s := by
    simp [Tools.asPositiveNumber, Tools.asNumber, jsToNumberCoerce, hns]
  have hfixed : jsToFixed 8 ((1 : ℚ) / 2 * 10) = 5 := by
    rw [jsToFixed]
    norm_num
  rcases hside with h | h <;> subst h
  · refine ⟨⟨["clob", "create-order", "--token", jsTrim token, "--side", "buy",
        "--price", jsNumToString p, "--size", jsNumToString s],
      [("token", .str (jsTrim token)), ("side", .str "buy"), ("price", .num p), ("size", .num s),
       ("amount_usd", .num (jsToFixed 8 (p * s))), ("postOnly", .undefVal), ("orderType", .undefVal)]⟩,
      ?_, rfl, rfl, rfl, rfl, rfl, ?_⟩
    · have hside2 : Tools.asSide (JsValue.str "buy") "side" = .ok "buy" := by
        simp [Tools.asSide, Tools.asString,
          show jsTrim "buy" = "buy" from by decide,
          show jsToLower "buy" = "buy" from by decide,
          show ¬("buy".length = 0) from by decide]
      simp only [Tools.order_create_limit, bind, Except.bind, pure, Except.pure]
      rw [show Tools.assertAllowedFields
        [("token", JsValue.str token), ("side", JsValue.str "buy"),
         ("price", JsValue.num p), ("size", JsValue.num s)]
        ["token", "side", "price", "size", "postOnly", "orderType"] = Except.ok () from rfl]
      simp [JsRecord.get, hstr, hside2, hprice, hsize,
        Tools.maybeBool, Tools.maybeString, Tools.optionBoolToJs, Tools.optionToJs]
    · intro hp' hs'
      subst hp'
      subst hs'
      rw [hfixed]
      rfl
  · refine ⟨⟨["clob", "create-order", "--token", jsTrim token, "--side", "sell",
        "--price", jsNumToString p, "--size", jsNumToString s],
      [("token", .str (jsTrim token)), ("side", .str "sell"), ("price", .num p), ("size", .num s),
       ("amount_usd", .num (jsToFixed 8 (p * s))), ("postOnly", .undefVal), ("orderType", .undefVal)]⟩,
      ?_, rfl, rfl, rfl, rfl, rfl, ?_⟩
    · have hside2 : Tools.asSide (JsValue.str "sell") "side" = .ok "sell" := by
        simp [Tools.asSide, Tools.asString,
          show jsTrim "sell" = "sell" from by decide,
          show jsToLower "sell" = "sell" from by decide,
          show ¬("sell".length = 0) from by decide]
      simp only [Tools.order_create_limit, bind, Except.bind, pure, Except.pure]
      rw [show Tools.assertAllowedFields
        [("token", JsValue.str token), ("side", JsValue.str "sell"),
         ("price", JsValue.num p), ("size", JsValue.num s)]
        ["token", "side", "price", "size", "postOnly", "orderType"] = Except.ok () from rfl]
      simp [JsRecord.get, hstr, hside2, hprice, hsize,
        Tools.maybeBool, Tools.maybeString, Tools.optionBoolToJs, Tools.optionToJs]
    · intro hp' hs'
      subst hp'
      subst hs'
      rw [hfixed]
      rfl

theorem c7_limit_order_build_witness :
    ∃ b, Tools.order_create_limit.build
        [("token", .str "tok1"), ("side", .str "buy"),
         ("price", .num (1 / 2)), ("size", .num 10)] = .ok b
      ∧ JsRecord.get b.guardArgs "amount_usd" = .num (jsToFixed 8 ((1 / 2) * 10))
      ∧ b.argv.get? 6 = some "--price" ∧ b.argv.get? 7 = some (jsNumToString (1 / 2))
      ∧ b.argv.get? 8 = some "--size" ∧ b.argv.get? 9 = some (jsNumToString 10)
      ∧ ((1 : ℚ) / 2 = 1 / 2 → (10 : ℚ) = 10 →
          JsRecord.get b.guardArgs "amount_usd" = .num 5) :=
  c7_limit_order_build "tok1" "buy" (1 / 2) 10 (by decide) (Or.inl rfl)
    (by norm_num) (by norm_num)

/-- C10: in the `order_market` simulation, `estimatedShares` (the amount
divided by the midpoint, rounded to 6 fractional digits) is present exactly
when the probed midpoint is a finite number strictly greater than zero and
the amount is a finite number; otherwise no estimate is emitted and the
simulation still succeeds (the record still carries `simulation: true`). -/
theorem c10_simulation_estimated_shares (env : Runtime.CallEnv)
    (built : Tools.CommandBuildResult) (binaryPath : String) (reason : Option String)
    (token : String) (htoken : JsRecord.get built.guardArgs "token" = .str token)
    (hne : token ≠ "") (hok : (env.execFn ["clob", "midpoint", token]).ok = true) :
    ("estimatedShares" ∈ JsRecord.keys
        (Runtime.simulate env Tools.order_market built binaryPath reason).1 ↔
      (∃ q, Runtime.asNumber (JsRecord.get built.guardArgs "amount") = some q) ∧
      (∃ mq, Runtime.extractMidpoint (env.execFn ["clob", "midpoint", token]).parsed = some mq ∧
        0 < mq))
    ∧ (∀ q mq, Runtime.asNumber (JsRecord.get built.guardArgs "amount") = some q →
        Runtime.extractMidpoint (env.execFn ["clob", "midpoint", token]).parsed = some mq →
        0 < mq →
        JsRecord.get (Runtime.simulate env Tools.order_market built binaryPath reason).1
          "estimatedShares" = .num (jsToFixed 6 (q / mq)))
    ∧ JsRecord.get (Runtime.simulate env Tools.order_market built binaryPath reason).1
        "simulation" = .bool true := by
  have hname : Tools.order_market.name = "order_market" := rfl
  simp only [Runtime.simulate, hname, htoken, hne, hok, if_true, if_pos, reduceIte]
  cases ha : Runtime.asNumber (JsRecord.get built.guardArgs "amount") with
  | none =>
      cases hm : Runtime.extractMidpoint (env.execFn ["clob", "midpoint", token]).parsed with
      | none => simp [JsRecord.keys, JsRecord.get, hne, ha, hm]
      | some mq => simp [JsRecord.keys, JsRecord.get, hne, ha, hm]
  | some q =>
      cases hm : Runtime.extractMidpoint (env.execFn ["clob", "midpoint", token]).parsed with
      | none => simp [JsRecord.keys, JsRecord.get, hne, ha, hm]
      | some mq =>
          by_cases hpos : (0 : ℚ) < mq
          · simp [JsRecord.keys, JsRecord.get, hne, ha, hm, hpos]
          · simp [JsRecord.keys, JsRecord.get, hne, ha, hm, hpos]
            exact not_lt.mp hpos

theorem c10_simulation_estimated_shares_witness :
    ("estimatedShares" ∈ JsRecord.keys
        (Runtime.simulate c10Env Tools.order_market c10Built "/usr/bin/polymarket" none).1 ↔
      (∃ q, Runtime.asNumber (JsRecord.get c10Built.guardArgs "amount") = some q) ∧
      (∃ mq, Runtime.extractMidpoint (c10Env.execFn ["clob", "midpoint", "1"]).parsed = some mq ∧
        0 < mq))
    ∧ (∀ q mq, Runtime.asNumber (JsRecord.get c10Built.guardArgs "amount") = some q →
        Runtime.extractMidpoint (c10Env.execFn ["clob", "midpoint", "1"]).parsed = some mq →
        0 < mq →
        JsRecord.get (Runtime.simulate c10Env Tools.order_market c10Built "/usr/bin/polymarket" none).1
          "estimatedShares" = .num (jsToFixed 6 (q / mq)))
    ∧ JsRecord.get (Runtime.simulate c10Env Tools.order_market c10Built "/usr/bin/polymarket" none).1
        "simulation" = .bool true :=
  c10_simulation_estimated_shares c10Env c10Built "/usr/bin/polymarket" none "1"
    rfl (by decide) (by simp [c10Env])

theorem Binary.candidateList_eq (options : Binary.ResolveBinaryOptions) :
    Binary.candidateList options =
      (Binary.lookupQueue options).flatMap (Binary.expandItem options) := rfl

theorem Binary.scanFirst_fst (fs : String → Bool) :
    ∀ cs : List String, (Binary.scanFirst fs cs).1 = cs.find? fs := by
  intro cs
  induction cs with
  | nil => rfl
  | cons c rest ih =>
      by_cases h : fs c
      · simp [Binary.scanFirst, List.find?, h]
      · simp only [Binary.scanFirst, List.find?]
        rw [if_neg h, Bool.of_not_eq_true h]
        simpa using ih

theorem Binary.scanFirst_snd_of_none (fs : String → Bool) :
    ∀ cs : List String, cs.find? fs = none → (Binary.scanFirst fs cs).2 = cs := by
  intro cs
  induction cs with
  | nil => intro _; rfl
  | cons c rest ih =>
      intro hnone
      rw [List.find?_cons] at hnone
      by_cases h : fs c
      · simp [h] at hnone
      · rw [Bool.of_not_eq_true h] at hnone
        simp only [Binary.scanFirst]
        rw [if_neg h]
        simpa [h] using ih (by simpa using hnone)

theorem Binary.runQueue_spec (fs : String → Bool) (options : Binary.ResolveBinaryOptions)
    (req : String) :
    ∀ (queue : List Binary.QueueItem) (checked : List String),
      ((Binary.runQueue fs options req queue checked).resolvedPath =
        ((queue.flatMap (Binary.expandItem options)).find? (fun c => fs c.2)).map Prod.snd)
      ∧ ((Binary.runQueue fs options req queue checked).source =
        ((queue.flatMap (Binary.expandItem options)).find? (fun c => fs c.2)).map Prod.fst)
      ∧ ((queue.flatMap (Binary.expandItem options)).find? (fun c => fs c.2) = none →
          Binary.runQueue fs options req queue checked =
            { requestedPath := req, resolvedPath := none, source := none,
              checkedPaths :=
                Binary.uniq (checked ++ (queue.flatMap (Binary.expandItem options)).map Prod.snd) }) := by
  intro queue
  induction queue with
  | nil =>
      intro checked
      refine ⟨rfl, rfl, fun _ => ?_⟩
      simp [Binary.runQueue]
  | cons item rest ih =>
      intro checked
      obtain ⟨src, cand, kind⟩ := item
      set cands := (match kind with
        | Binary.LookupKind.commandKind => Binary.commandCandidates options.env cand
        | Binary.LookupKind.pathKind => Binary.resolvePathCandidates cand options.baseDir options.cwd)
        with hcands
      have hexp : Binary.expandItem options ⟨src, cand, kind⟩ =
          cands.map (fun c => (src, c)) := rfl
      have hfind : ((⟨src, cand, kind⟩ :: rest).flatMap (Binary.expandItem options)).find?
          (fun c => fs c.2) =
          ((cands.find? fs).map (fun c => (src, c))).or
            ((rest.flatMap (Binary.expandItem options)).find? (fun c => fs c.2)) := by
        rw [List.flatMap_cons, List.find?_append, hexp, List.find?_map]
        rfl
      cases hscan : cands.find? fs with
      | some p =>
          have h1 : (Binary.scanFirst fs cands).1 = some p := by
            rw [Binary.scanFirst_fst]; exact hscan
          refine ⟨?_, ?_, ?_⟩
          · simp only [Binary.runQueue, ← hcands, h1, hfind, hscan]
            rfl
          · simp only [Binary.runQueue, ← hcands, h1, hfind, hscan]
            rfl
          · intro hcontr
            rw [hfind, hscan] at hcontr
            simp at hcontr
      | none =>
          have h1 : (Binary.scanFirst fs cands).1 = none := by
            rw [Binary.scanFirst_fst]; exact hscan
          have h2 : (Binary.scanFirst fs cands).2 = cands :=
            Binary.scanFirst_snd_of_none fs cands hscan
          have hrw : Binary.runQueue fs options req (⟨src, cand, kind⟩ :: rest) checked =
              Binary.runQueue fs options req rest (checked ++ cands) := by
            simp only [Binary.runQueue, ← hcands, h1, h2]
          obtain ⟨ih1, ih2, ih3⟩ := ih (checked ++ cands)
          refine ⟨?_, ?_, ?_⟩
          · rw [hrw, ih1, hfind, hscan]
            simp
          · rw [hrw, ih2, hfind, hscan]
            simp
          · intro hnone
            rw [hfind, hscan] at hnone
            simp only [Option.map_none', Option.none_or] at hnone
            rw [hrw, ih3 hnone]
            congr 1
            rw [List.flatMap_cons, List.map_append, hexp, List.map_map]
            rw [List.append_assoc]
            simp [Function.comp]

/-- C9: binary resolution checks the spec's candidates in strict priority
order (environment override, configured path unless `auto`, search path,
then release/debug build outputs under the de-duplicated roots), stops at
the first executable candidate and labels it with the matching source; when
every candidate fails it reports no path, no source and the de-duplicated
full checked list; and the concrete workspace-release scenario resolves
with source `workspace-release`, listing every checked candidate. -/
theorem c9_binary_resolution_order (fs : String → Bool) (options : Binary.ResolveBinaryOptions) :
    ((Binary.resolvePolymarketBinary fs options).resolvedPath =
      ((Binary.candidateList options).find? (fun c => fs c.2)).map Prod.snd)
    ∧ ((Binary.resolvePolymarketBinary fs options).source =
      ((Binary.candidateList options).find? (fun c => fs c.2)).map Prod.fst)
    ∧ (∀ p, (Binary.resolvePolymarketBinary fs options).resolvedPath = some p → fs p = true)
    ∧ ((Binary.candidateList options).find? (fun c => fs c.2) = none →
        Binary.resolvePolymarketBinary fs options =
          { requestedPath := Binary.normalizedRequestedPath options.requestedPath,
            resolvedPath := none, source := none,
            checkedPaths := Binary.uniq ((Binary.candidateList options).map Prod.snd) })
    ∧ (Binary.resolvePolymarketBinary (fun p => p == "/repo/target/release/polymarket")
        { requestedPath := "auto", baseDir := "/repo/veto-agent", cwd := "/repo/veto-agent" } =
        { requestedPath := "auto", resolvedPath := some "/repo/target/release/polymarket",
          source := some .workspaceRelease,
          checkedPaths := ["/repo/veto-agent/target/release/polymarket",
            "/repo/veto-agent/target/debug/polymarket",
            "/repo/target/release/polymarket"] }) := by
  obtain ⟨h1, h2, h3⟩ := Binary.runQueue_spec fs options
    (Binary.normalizedRequestedPath options.requestedPath) (Binary.lookupQueue options) []
  rw [Binary.candidateList_eq]
  refine ⟨h1, h2, ?_, ?_, by decide⟩
  · intro p hp
    unfold Binary.resolvePolymarketBinary at hp
    rw [h1] at hp
    cases hfind : ((Binary.lookupQueue options).flatMap (Binary.expandItem options)).find?
        (fun c => fs c.2) with
    | none => rw [hfind] at hp; simp at hp
    | some c =>
        rw [hfind] at hp
        simp at hp
        have hc := List.find?_some hfind
        rw [← hp]
        exact hc
  · intro hnone
    simpa using h3 hnone

/-- Witness for C9: with no candidate executable, resolution reports no
path and no source but the full de-duplicated checked list. -/
theorem c9_binary_resolution_order_witness :
    Binary.resolvePolymarketBinary (fun _ => false)
        { requestedPath := "auto", baseDir := "/repo/veto-agent", cwd := "/repo/veto-agent" } =
      { requestedPath := Binary.normalizedRequestedPath "auto",
        resolvedPath := none, source := none,
        checkedPaths := Binary.uniq ((Binary.candidateList
          { requestedPath := "auto", baseDir := "/repo/veto-agent",
            cwd := "/repo/veto-agent" }).map Prod.snd) } :=
  (c9_binary_resolution_order (fun _ => false)
    { requestedPath := "auto", baseDir := "/repo/veto-agent", cwd := "/repo/veto-agent" }).2.2.2.1
    (by decide)

/-- C2: a `deny` decision makes `callTool` fail with code -32001, carrying
the decision's reason and ruleId, and no subprocess of any kind runs — the
executor trace is empty and the poller never runs. -/
theorem c2_deny_short_circuits (env : Runtime.CallEnv) (toolName : String) (args : JsRecord)
    (simulationOverride : Option Bool) (spec : Tools.ToolSpec) (built : Tools.CommandBuildResult)
    (hspec : Tools.getToolSpec toolName = some spec)
    (hbuilt : spec.build args = .ok built)
    (hdeny : (env.guardFn toolName
      (JsRecord.set built.guardArgs "timestamp" (.str env.timestamp))).decision = "deny") :
    Runtime.callTool env toolName args simulationOverride =
      { result := .error
          { code := -32001,
            message := "Denied by policy: " ++
              (env.guardFn toolName (JsRecord.set built.guardArgs "timestamp"
                (.str env.timestamp))).reason.getD "policy violation",
            data := some (.obj [("ruleId", Runtime.optToJs
              (env.guardFn toolName (JsRecord.set built.guardArgs "timestamp"
                (.str env.timestamp))).ruleId)]) },
        execCalls := [], approvalCalls := 0 } := by
  simp only [Runtime.callTool, hspec, hbuilt, hdeny]
  simp

theorem c2_deny_short_circuits_witness :
    Runtime.callTool c2Env "order_market"
        [("token", .str "1"), ("side", .str "buy"), ("amount", .num 10)] none =
      { result := .error
          { code := -32001,
            message := "Denied by policy: " ++
              (c2Env.guardFn "order_market" (JsRecord.set
                [("token", JsValue.str "1"), ("side", JsValue.str "buy"),
                 ("amount", JsValue.num 10), ("amount_usd", JsValue.num 10)]
                "timestamp" (.str c2Env.timestamp))).reason.getD "policy violation",
            data := some (.obj [("ruleId", Runtime.optToJs
              (c2Env.guardFn "order_market" (JsRecord.set
                [("token", JsValue.str "1"), ("side", JsValue.str "buy"),
                 ("amount", JsValue.num 10), ("amount_usd", JsValue.num 10)]
                "timestamp" (.str c2Env.timestamp))).ruleId)]) },
        execCalls := [], approvalCalls := 0 } :=
  c2_deny_short_circuits c2Env "order_market"
    [("token", .str "1"), ("side", .str "buy"), ("amount", .num 10)] none
    Tools.order_market
    { argv := ["clob", "market-order", "--token", "1", "--side", "buy", "--amount", jsNumToString 10],
      guardArgs := [("token", .str "1"), ("side", .str "buy"),
        ("amount", .num 10), ("amount_usd", .num 10)] }
    rfl
    (by simp [Tools.order_market, bind, Except.bind, pure, Except.pure,
      Tools.assertAllowedFields, JsRecord.get, Tools.asString, Tools.asSide,
      Tools.asPositiveNumber, Tools.asNumber, jsToNumberCoerce,
      show jsTrim "1" = "1" from by decide,
      show jsTrim "buy" = "buy" from by decide,
      show jsToLower "buy" = "buy" from by decide,
      show ¬((10 : ℚ) ≤ 0) from by norm_num,
      show ¬("1".length = 0) from by decide,
      show ¬("buy".length = 0) from by decide])
    rfl

/-- C3: on `require_approval`, a missing or blank approvalId fails
immediately with code -32002 and the poller never runs; a usable id makes
exactly one wait-for-approval call; a `denied`/`expired` outcome fails with
PolicyDenied annotated with the approval status; an `approved` outcome lets
the call continue to binary resolution and execution (`proceed`). -/
theorem c3_require_approval_flow (env : Runtime.CallEnv) (toolName : String) (args : JsRecord)
    (simulationOverride : Option Bool) (spec : Tools.ToolSpec) (built : Tools.CommandBuildResult)
    (hspec : Tools.getToolSpec toolName = some spec)
    (hbuilt : spec.build args = .ok built)
    (hreq : (env.guardFn toolName
      (JsRecord.set built.guardArgs "timestamp" (.str env.timestamp))).decision =
      "require_approval") :
    (((env.guardFn toolName (JsRecord.set built.guardArgs "timestamp"
          (.str env.timestamp))).approvalId = none ∨
      (∃ s, (env.guardFn toolName (JsRecord.set built.guardArgs "timestamp"
          (.str env.timestamp))).approvalId = some s ∧ jsTrim s = "")) →
      Runtime.callTool env toolName args simulationOverride =
        { result := .error
            { code := -32002,
              message := "Approval required: " ++
                (env.guardFn toolName (JsRecord.set built.guardArgs "timestamp"
                  (.str env.timestamp))).reason.getD "awaiting approval",
              data := some (.obj [("ruleId", Runtime.optToJs
                (env.guardFn toolName (JsRecord.set built.guardArgs "timestamp"
                  (.str env.timestamp))).ruleId)]) },
          execCalls := [], approvalCalls := 0 })
    ∧ (∀ s, (env.guardFn toolName (JsRecord.set built.guardArgs "timestamp"
          (.str env.timestamp))).approvalId = some s → jsTrim s ≠ "" →
        (Runtime.callTool env toolName args simulationOverride).approvalCalls = 1)
    ∧ (∀ s st rb, (env.guardFn toolName (JsRecord.set built.guardArgs "timestamp"
          (.str env.timestamp))).approvalId = some s → jsTrim s ≠ "" →
        env.approvalFn s = .resolved st rb → (st = "denied" ∨ st = "expired") →
        Runtime.callTool env toolName args simulationOverride =
          { result := .error
              { code := -32001,
                message := "Denied by policy: Approval " ++ st ++ ": " ++
                  (env.guardFn toolName (JsRecord.set built.guardArgs "timestamp"
                    (.str env.timestamp))).reason.getD "approval not granted",
                data := some (.obj [("ruleId", Runtime.optToJs
                  (env.guardFn toolName (JsRecord.set built.guardArgs "timestamp"
                    (.str env.timestamp))).ruleId),
                  ("approvalId", .str s), ("resolvedBy", Runtime.optToJs rb)]) },
            execCalls := [], approvalCalls := 1 })
    ∧ (∀ s rb, (env.guardFn toolName (JsRecord.set built.guardArgs "timestamp"
          (.str env.timestamp))).approvalId = some s → jsTrim s ≠ "" →
        env.approvalFn s = .resolved "approved" rb →
        Runtime.callTool env toolName args simulationOverride =
          { result := (Runtime.proceed env spec built simulationOverride).1,
            execCalls := (Runtime.proceed env spec built simulationOverride).2,
            approvalCalls := 1 }) := by
  refine ⟨?_, ?_, ?_, ?_⟩
  · intro hid
    simp only [Runtime.callTool, hspec, hbuilt, hreq]
    rcases hid with hnone | ⟨s, hsome, htrim⟩
    · rw [hnone]
      simp
    · rw [hsome]
      simp [htrim]
  · intro s hsome htrim
    have hlen := string_length_ne_zero htrim
    simp only [Runtime.callTool, hspec, hbuilt, hreq, hsome]
    cases happ : env.approvalFn s with
    | resolved st rb =>
        by_cases hst : st = "approved"
        · subst hst
          simp [happ, Nat.pos_of_ne_zero hlen]
        · simp [happ, hst, Nat.pos_of_ne_zero hlen]
    | thrownShape shape => simp [happ, Nat.pos_of_ne_zero hlen]
    | thrownOther m => simp [happ, Nat.pos_of_ne_zero hlen]
  · intro s st rb hsome htrim happ hst
    have hlen := string_length_ne_zero htrim
    have hstne : st ≠ "approved" := by
      rcases hst with h | h <;> subst h <;> decide
    simp only [Runtime.callTool, hspec, hbuilt, hreq, hsome]
    simp [happ, hstne, Nat.pos_of_ne_zero hlen]
  · intro s rb hsome htrim happ
    have hlen := string_length_ne_zero htrim
    simp only [Runtime.callTool, hspec, hbuilt, hreq, hsome]
    simp [happ, Nat.pos_of_ne_zero hlen]

/-- Witness for C3: a denied approval outcome yields PolicyDenied annotated
with the approval status after exactly one poll. -/
theorem c3_require_approval_flow_witness :
    Runtime.callTool c3Env "markets_list" [] none =
      { result := .error
          { code := -32001,
            message := "Denied by policy: Approval " ++ "denied" ++ ": " ++
              (c3Env.guardFn "markets_list" (JsRecord.set [] "timestamp"
                (.str c3Env.timestamp))).reason.getD "approval not granted",
            data := some (.obj [("ruleId", Runtime.optToJs
              (c3Env.guardFn "markets_list" (JsRecord.set [] "timestamp"
                (.str c3Env.timestamp))).ruleId),
              ("approvalId", .str "apr_test_456"),
              ("resolvedBy", Runtime.optToJs (some "reviewer"))]) },
        execCalls := [], approvalCalls := 1 } :=
  (c3_require_approval_flow c3Env "markets_list" [] none Tools.markets_list
      { argv := ["markets", "list"], guardArgs := [] }
      rfl rfl (by simp [c3Env])).2.2.1
    "apr_test_456" "denied" (some "reviewer") (by simp [c3Env]) (by decide)
    (by simp [c3Env]) (Or.inl rfl)

/-- Every mutating tool's argument vector differs from the simulation's
read-only midpoint probe. -/
theorem mutating_build_argv_ne_probe (spec : Tools.ToolSpec)
    (hmem : spec ∈ Tools.TOOL_SPECS) (hmut : spec.mutating = true) :
    ∀ (args : JsRecord) (built : Tools.CommandBuildResult), spec.build args = .ok built →
      ∀ t, built.argv ≠ ["clob", "midpoint", t] := by
  intro args built hbuilt t
  simp only [Tools.TOOL_SPECS, Tools.READ_ONLY_TOOLS, Tools.MUTATING_TOOLS,
    List.append_eq, List.cons_append, List.nil_append,
    List.mem_cons, List.not_mem_nil, or_false] at hmem
  rcases hmem with h | h | h | h | h | h | h | h | h | h | h | h | h | h | h <;> subst h <;>
    first
    | (simp [Tools.markets_list, Tools.markets_search, Tools.markets_get, Tools.clob_book,
         Tools.clob_midpoint, Tools.clob_price, Tools.portfolio_positions] at hmut
       done)
    | (simp only [Tools.order_create_limit, Tools.order_market, Tools.order_cancel,
         Tools.order_cancel_all, Tools.approve_set, Tools.ctf_split, Tools.ctf_merge,
         Tools.ctf_redeem, bind, Except.bind, pure, Except.pure] at hbuilt
       repeat' split at hbuilt
       all_goals (try simp only [Except.ok.injEq] at hbuilt)
       all_goals (try subst hbuilt)
       all_goals simp_all)

/-- The simulation path spawns at most the read-only midpoint probe. -/
theorem simulate_calls (env : Runtime.CallEnv) (spec : Tools.ToolSpec)
    (built : Tools.CommandBuildResult) (binaryPath : String) (reason : Option String) :
    (Runtime.simulate env spec built binaryPath reason).2 = [] ∨
    ∃ t, (Runtime.simulate env spec built binaryPath reason).2 = [["clob", "midpoint", t]] := by
  by_cases h1 : spec.name = "order_market" ∨ spec.name = "order_create_limit"
  · simp only [Runtime.simulate, if_pos h1]
    cases hget : built.guardArgs.get "token" with
    | str token =>
        by_cases ht : token ≠ ""
        · by_cases hok : (env.execFn ["clob", "midpoint", token]).ok = true
          · simp only [if_pos ht, hok, reduceIte]
            exact Or.inr ⟨token, rfl⟩
          · simp only [Bool.not_eq_true] at hok
            simp only [if_pos ht, hok, Bool.false_eq_true, reduceIte]
            exact Or.inr ⟨token, rfl⟩
        · simp only [if_neg ht]
          exact Or.inl trivial
    | null => exact Or.inl rfl
    | undefVal => exact Or.inl rfl
    | bool b => exact Or.inl rfl
    | num q => exact Or.inl rfl
    | nonfinite => exact Or.inl rfl
    | arr xs => exact Or.inl rfl
    | obj fields => exact Or.inl rfl
  · simp only [Runtime.simulate, if_neg h1]
    exact Or.inl trivial

/-- When a mutating tool is forced into simulation, `proceed` spawns at
most the midpoint probe. -/
theorem proceed_sim_calls (env : Runtime.CallEnv) (spec : Tools.ToolSpec)
    (built : Tools.CommandBuildResult) (simulationOverride : Option Bool)
    (hmut : spec.mutating = true)
    (hsim : (Runtime.resolveLiveState spec.mutating simulationOverride env.cfg
      env.allowLiveEnv).simulation = true) :
    (Runtime.proceed env spec built simulationOverride).2 = [] ∨
    ∃ t, (Runtime.proceed env spec built simulationOverride).2 = [["clob", "midpoint", t]] := by
  rw [hmut] at hsim
  simp only [Runtime.proceed]
  cases env.binaryResolvedPath with
  | none => exact Or.inl rfl
  | some binaryPath =>
      simp only [hmut, hsim, Bool.and_self, if_true, reduceIte]
      exact simulate_calls env spec built binaryPath _

/-- `callTool` either spawns nothing or exactly what `proceed` spawns. -/
theorem callTool_execCalls (env : Runtime.CallEnv) (toolName : String) (args : JsRecord)
    (simulationOverride : Option Bool) (spec : Tools.ToolSpec) (built : Tools.CommandBuildResult)
    (hspec : Tools.getToolSpec toolName = some spec)
    (hbuilt : spec.build args = .ok built) :
    (Runtime.callTool env toolName args simulationOverride).execCalls = [] ∨
    (Runtime.callTool env toolName args simulationOverride).execCalls =
      (Runtime.proceed env spec built simulationOverride).2 := by
  simp only [Runtime.callTool, hspec, hbuilt]
  by_cases hd : (env.guardFn toolName
      (JsRecord.set built.guardArgs "timestamp" (.str env.timestamp))).decision = "deny"
  · simp [hd]
  · by_cases hr : (env.guardFn toolName
        (JsRecord.set built.guardArgs "timestamp" (.str env.timestamp))).decision =
        "require_approval"
    · simp only [hd, hr, if_false, if_true, reduceIte]
      cases hid : (env.guardFn toolName
          (JsRecord.set built.guardArgs "timestamp" (.str env.timestamp))).approvalId with
      | none => simp [hid]
      | some s =>
          by_cases hlen : (jsTrim s).length > 0
          · simp only [hid]
            cases happ : env.approvalFn s with
            | resolved st rb =>
                by_cases hst : st = "approved"
                · subst hst
                  simp [happ, hlen]
                · simp [happ, hlen, hst]
            | thrownShape shape => simp [happ, hlen]
            | thrownOther m => simp [happ, hlen]
          · simp [hid, hlen]
    · simp [hd, hr]

/-- C1: a mutating tool runs live only when all gates agree — the
override (or the configured default when absent) says live, config allows
live trading, and `ALLOW_LIVE_TRADES` is an affirmative `true` — and when
any gate requests simulation the mutating argument vector is never passed
to the process executor; read-only tools are never simulated. -/
theorem c1_mutating_live_gates (env : Runtime.CallEnv) (toolName : String) (args : JsRecord)
    (simulationOverride : Option Bool) (spec : Tools.ToolSpec) (built : Tools.CommandBuildResult)
    (hspec : Tools.getToolSpec toolName = some spec)
    (hmut : spec.mutating = true)
    (hbuilt : spec.build args = .ok built) :
    ((Runtime.resolveLiveState spec.mutating simulationOverride env.cfg
        env.allowLiveEnv).simulation = false ↔
      (simulationOverride.getD env.cfg.simulationDefault = false ∧
        env.cfg.allowLiveTrades = true ∧
        jsToLower (env.allowLiveEnv.getD "") = "true"))
    ∧ ((Runtime.resolveLiveState spec.mutating simulationOverride env.cfg
        env.allowLiveEnv).simulation = true →
        built.argv ∉ (Runtime.callTool env toolName args simulationOverride).execCalls)
    ∧ (∀ (o : Option Bool) (cfg : Runtime.ExecutionCfg) (e : Option String),
        (Runtime.resolveLiveState false o cfg e).simulation = false) := by
  refine ⟨?_, ?_, ?_⟩
  · rw [hmut]
    by_cases h1 : simulationOverride.getD env.cfg.simulationDefault <;>
      by_cases h2 : env.cfg.allowLiveTrades <;>
      by_cases h3 : jsToLower (env.allowLiveEnv.getD "") = "true" <;>
      simp [Runtime.resolveLiveState, h1, h2, h3]
  · intro hsim hmem
    rcases callTool_execCalls env toolName args simulationOverride spec built hspec hbuilt with
      hcalls | hcalls
    · rw [hcalls] at hmem
      exact List.not_mem_nil _ hmem
    · rw [hcalls] at hmem
      rcases proceed_sim_calls env spec built simulationOverride hmut hsim with hp | ⟨t, hp⟩
      · rw [hp] at hmem
        exact List.not_mem_nil _ hmem
      · rw [hp] at hmem
        rcases List.mem_singleton.mp hmem with heq
        exact mutating_build_argv_ne_probe spec
          (List.mem_of_find?_eq_some hspec) hmut args built hbuilt t heq
  · intro o cfg e
    simp [Runtime.resolveLiveState]

theorem c1_mutating_live_gates_witness :
    ((Runtime.resolveLiveState Tools.order_market.mutating none c1Env.cfg
        c1Env.allowLiveEnv).simulation = false ↔
      ((none : Option Bool).getD c1Env.cfg.simulationDefault = false ∧
        c1Env.cfg.allowLiveTrades = true ∧
        jsToLower (c1Env.allowLiveEnv.getD "") = "true"))
    ∧ ((Runtime.resolveLiveState Tools.order_market.mutating none c1Env.cfg
        c1Env.allowLiveEnv).simulation = true →
        ["clob", "market-order", "--token", "1", "--side", "buy", "--amount", jsNumToString 10] ∉
          (Runtime.callTool c1Env "order_market"
            [("token", .str "1"), ("side", .str "buy"), ("amount", .num 10)] none).execCalls)
    ∧ (∀ (o : Option Bool) (cfg : Runtime.ExecutionCfg) (e : Option String),
        (Runtime.resolveLiveState false o cfg e).simulation = false) :=
  c1_mutating_live_gates c1Env "order_market"
    [("token", .str "1"), ("side", .str "buy"), ("amount", .num 10)] none
    Tools.order_market
    { argv := ["clob", "market-order", "--token", "1", "--side", "buy", "--amount", jsNumToString 10],
      guardArgs := [("token", .str "1"), ("side", .str "buy"),
        ("amount", .num 10), ("amount_usd", .num 10)] }
    rfl rfl
    (by simp [Tools.order_market, bind, Except.bind, pure, Except.pure,
      Tools.assertAllowedFields, JsRecord.get, Tools.asString, Tools.asSide,
      Tools.asPositiveNumber, Tools.asNumber, jsToNumberCoerce,
      show jsTrim "1" = "1" from by decide,
      show jsTrim "buy" = "buy" from by decide,
      show jsToLower "buy" = "buy" from by decide,
      show ¬((10 : ℚ) ≤ 0) from by norm_num,
      show ¬("1".length = 0) from by decide,
      show ¬("buy".length = 0) from by decide])
